import Mathlib

/-!
Verification development for the entity-resolution core of the
`adsomnia` backend (`backend/sql_agent`): the paginated Everflow client
(`everflow_client.py`), the entity resolver (`entity_resolver.py`) and the
API request validator (`everflow_api_validator.py`).

The Python code is shallowly embedded: strings are `String` (character
lists, ASCII fragment of Python's `str` semantics), Python dicts appearing
in filter bundles are association lists, fallible network calls are
`Except`/oracle parameters, and the mutable per-resolver caches are
threaded explicitly as state.  `difflib.SequenceMatcher.ratio` (Python
standard library, not repository code) is abstracted as a rational-valued
parameter `ratio` constrained to `[0,1]` where a claim needs that bound.
-/

/- ## Python string primitives (ASCII fragment)

`str.lower()` is modelled by `Char.toLower` (which lowers exactly the
basic latin letters), `str.strip()` by dropping whitespace on both ends,
`str.split()` by splitting on whitespace runs and dropping empties, and
`' '.join(...)` by interleaving single spaces. -/

/-- Python `text.replace('[','(').replace(']',')')`, one character. -/
def replaceBr (c : Char) : Char :=
  if c = '[' then '(' else if c = ']' then ')' else c

/-- Python `str.split()` worker: `acc` holds the current word reversed. -/
def pywordsAux (acc : List Char) : List Char → List (List Char)
  | [] => if acc.isEmpty then [] else [acc.reverse]
  | c :: cs =>
    if c.isWhitespace then
      if acc.isEmpty then pywordsAux [] cs
      else acc.reverse :: pywordsAux [] cs
    else pywordsAux (c :: acc) cs

/-- Python `str.split()`: whitespace-run split, no empty words. -/
def pywords (l : List Char) : List (List Char) := pywordsAux [] l

/-- Python `' '.join(words)`. -/
def joinWords : List (List Char) → List Char
  | [] => []
  | [w] => w
  | w :: ws => w ++ ' ' :: joinWords ws

/-- Character-list core of `normalize_for_matching` in
`entity_resolver.py` (`resolve_offer`, lines 219-224): replace brackets by
parentheses, then collapse whitespace runs via `' '.join(text.split())`. -/
def normChars (l : List Char) : List Char :=
  joinWords (pywords (l.map replaceBr))

/-- `normalize_for_matching(text)` from `entity_resolver.py`. -/
def normalize_for_matching (s : String) : String :=
  ⟨normChars s.data⟩

/-- Python `str.strip()` on character lists. -/
def stripChars (l : List Char) : List Char :=
  (((l.dropWhile Char.isWhitespace).reverse.dropWhile Char.isWhitespace)).reverse

/-- Python `str.strip()`. -/
def pystrip (s : String) : String := ⟨stripChars s.data⟩

/-- Python `str.lower()` (ASCII model). -/
def pyLower (s : String) : String := ⟨s.data.map Char.toLower⟩

/-- `str(value).strip().lower()` — the search-term normalisation used for
cache keys and matching throughout `entity_resolver.py`. -/
def pynorm (s : String) : String := pyLower (pystrip s)

/-- Python substring test `sub in big`, prefix worker. -/
def isPrefixB : List Char → List Char → Bool
  | [], _ => true
  | _ :: _, [] => false
  | a :: as, b :: bs => a = b && isPrefixB as bs

/-- Python substring test `sub in big` on character lists. -/
def containsSub (sub : List Char) : List Char → Bool
  | [] => sub.isEmpty
  | c :: rest => isPrefixB sub (c :: rest) || containsSub sub rest

/-- Python `sub in big` for strings. -/
def pyIn (sub big : String) : Bool := containsSub sub.data big.data

/- ## `everflow_client.py`: paginated collection fetches

A page response is the pair the loop reads: the record array
(`response.get("affiliates"/"offers", [])`) and
`paging.get("total_count", 0)`.  The network (`self._request`) is an
oracle `Nat → Except String (Page _)` indexed by the requested page
number; a `.error` models a `requests` exception or deserialization
failure raised by `_request`.  The loop additionally records the list of
page numbers it requested, in order, so that page-count claims are
statable. -/

/-- A raw affiliate record, restricted to the fields
`get_affiliates` reads: `network_affiliate_id`, `name`,
`account_status`. `none` models an absent key. -/
structure RawAff where
  network_affiliate_id : Option Int
  name : Option String
  account_status : Option String
deriving DecidableEq, Repr

/-- One page of the affiliates endpoint. -/
structure AffPage where
  affiliates : List RawAff
  total_count : Nat
deriving DecidableEq, Repr

/-- Formatted affiliate dict built by `get_affiliates`. -/
structure Aff where
  affiliate_id : Int
  affiliate_name : String
  account_status : Option String
deriving DecidableEq, Repr

/-- Python truthiness of `aff.get("network_affiliate_id")`:
absent (`None`) and `0` are falsy. -/
def truthyOptInt : Option Int → Bool
  | none => false
  | some n => n != 0

/-- Python truthiness of `limit` (`if limit:`): `None` and `0` are falsy. -/
def truthyLimit : Option Nat → Bool
  | none => false
  | some n => n != 0

/-- `if limit and len(acc) >= limit:`. -/
def limitReached (limit : Option Nat) (n : Nat) : Bool :=
  truthyLimit limit && match limit with
    | none => false
    | some l => decide (l ≤ n)

/-- The per-page record loop of `get_affiliates` (lines 190-203): append a
formatted dict for every truthy-id record, stopping early once the limit
is reached. -/
def extendAffs (limit : Option Nat) (acc : List Aff) : List RawAff → List Aff
  | [] => acc
  | a :: rest =>
    match a.network_affiliate_id with
    | some aid =>
      if aid ≠ 0 then
        let acc' := acc ++ [{ affiliate_id := aid
                              affiliate_name := a.name.getD s!"Partner {aid}"
                              account_status := a.account_status }]
        if limitReached limit acc'.length then acc'
        else extendAffs limit acc' rest
      else extendAffs limit acc rest
    | none => extendAffs limit acc rest

/-- The `while True` pagination loop of `get_affiliates`
(lines 174-230), also returning the pages requested in order.  Errors
raised by `_request` propagate (to the enclosing `try`). -/
def get_affiliates_loop (fetch : Nat → Except String AffPage) (limit : Option Nat)
    (acc : List Aff) (page : Nat) : Except String (List Aff × List Nat) :=
  match fetch page with
  | .error e => .error e
  | .ok pg =>
    if pg.affiliates.isEmpty then .ok (acc, [page])
    else
      let acc' := extendAffs limit acc pg.affiliates
      if limitReached limit acc'.length then .ok (acc', [page])
      else
        let tc := pg.total_count
        if 0 < tc ∧ acc'.length ≥ tc then .ok (acc', [page])
        else if pg.affiliates.length < 50 then .ok (acc', [page])
        else if 0 < tc ∧ tc - acc'.length ≤ 0 then .ok (acc', [page])
        else if page + 1 > 50 then .ok (acc', [page])
        else
          match get_affiliates_loop fetch limit acc' (page + 1) with
          | .error e => .error e
          | .ok (res, ps) => .ok (res, page :: ps)
termination_by 50 - page
decreasing_by omega

/-- `EverflowClient.get_affiliates` (lines 163-238): the whole loop runs
inside `try: ... except Exception: return []`, so any page error yields
the empty list; on success a truthy limit truncates the result. -/
def get_affiliates (fetch : Nat → Except String AffPage) (limit : Option Nat) : List Aff :=
  match get_affiliates_loop fetch limit [] 1 with
  | .error _ => []
  | .ok (l, _) =>
    match limit with
    | some l₀ => if l₀ ≠ 0 then l.take l₀ else l
    | none => l

/-- A raw offer record, restricted to the fields `get_offers` reads. -/
structure RawOffer where
  network_offer_id : Option Int
  name : Option String
  network_advertiser_id : Option Int
  destination_url : Option String
deriving DecidableEq, Repr

/-- One page of the offers endpoint. -/
structure OfferPage where
  offers : List RawOffer
  total_count : Nat
deriving DecidableEq, Repr

/-- Formatted offer dict built by `get_offers`. -/
structure FetchedOffer where
  offer_id : Int
  offer_name : String
  advertiser_id : Option Int
  destination_url : Option String
deriving DecidableEq, Repr

/-- The per-page record loop of `get_offers` (lines 268-287), including
the client-side `search_term` filter. -/
def extendOffers (limit : Option Nat) (search_term : Option String)
    (acc : List FetchedOffer) : List RawOffer → List FetchedOffer
  | [] => acc
  | o :: rest =>
    match o.network_offer_id with
    | some oid =>
      if oid ≠ 0 then
        let offer_name := o.name.getD s!"Offer {oid}"
        if (match search_term with
            | some st => !(pyIn (pyLower st) (pyLower offer_name))
            | none => false) then
          extendOffers limit search_term acc rest
        else
          let acc' := acc ++ [{ offer_id := oid
                                offer_name := offer_name
                                advertiser_id := o.network_advertiser_id
                                destination_url := o.destination_url }]
          if limitReached limit acc'.length then acc'
          else extendOffers limit search_term acc' rest
      else extendOffers limit search_term acc rest
    | none => extendOffers limit search_term acc rest

/-- The `while True` pagination loop of `get_offers` (lines 252-320),
also returning the pages requested in order. -/
def get_offers_loop (fetch : Nat → Except String OfferPage) (limit : Option Nat)
    (search_term : Option String) (acc : List FetchedOffer) (page : Nat) :
    Except String (List FetchedOffer × List Nat) :=
  match fetch page with
  | .error e => .error e
  | .ok pg =>
    if pg.offers.isEmpty then .ok (acc, [page])
    else
      let acc' := extendOffers limit search_term acc pg.offers
      if limitReached limit acc'.length then .ok (acc', [page])
      else
        let tc := pg.total_count
        if 0 < tc ∧ acc'.length ≥ tc then .ok (acc', [page])
        else if pg.offers.length < 50 then .ok (acc', [page])
        else if 0 < tc ∧ tc - acc'.length ≤ 0 then .ok (acc', [page])
        else if page + 1 > 50 then .ok (acc', [page])
        else
          match get_offers_loop fetch limit search_term acc' (page + 1) with
          | .error e => .error e
          | .ok (res, ps) => .ok (res, page :: ps)
termination_by 50 - page
decreasing_by omega

/-- `EverflowClient.get_offers` (lines 240-328): `try: ... except
Exception: return []` around the loop. -/
def get_offers (fetch : Nat → Except String OfferPage) (limit : Option Nat)
    (search_term : Option String) : List FetchedOffer :=
  match get_offers_loop fetch limit search_term [] 1 with
  | .error _ => []
  | .ok (l, _) =>
    match limit with
    | some l₀ => if l₀ ≠ 0 then l.take l₀ else l
    | none => l

/- ## `test_data_reference.py` -/

/-- `AFFILIATES` test table: (id, name). -/
def AFFILIATES : List (Int × String) :=
  [(12345, "Premium Traffic Partners"), (23456, "Global Media Network"),
   (34567, "Digital Marketing Pro"), (45678, "Affiliate Masters"),
   (56789, "Traffic Boosters Inc")]

/-- `OFFERS` test table: (id, name). -/
def OFFERS : List (Int × String) :=
  [(1001, "Summer Promo 2024"), (1002, "Holiday Special"),
   (1003, "Evergreen Offer A"), (1004, "Winter Campaign"),
   (1005, "New Year Deal")]

/-- `get_affiliate_by_name`: first test affiliate whose lowered name
equals the lowered query. -/
def get_affiliate_by_name (name : String) : Option (Int × String) :=
  AFFILIATES.find? (fun a => pyLower a.2 == pyLower name)

/-- `get_offer_by_name`: first test offer whose lowered name equals the
lowered query. -/
def get_offer_by_name (name : String) : Option (Int × String) :=
  OFFERS.find? (fun o => pyLower o.2 == pyLower name)

/- ## `entity_resolver.py`

The resolver works on offer/affiliate dicts; we restrict each dict to
the name fields the resolver reads (`offer.get(field, "")` yields `""`
for an absent key, so absent fields are modelled by `""`).
`_calculate_similarity` delegates to `difflib.SequenceMatcher.ratio`,
modelled by the abstract parameter `ratio`. -/

/-- An offer dict as consumed by `resolve_offer`: the Python code probes
`offer_id` plus nine name fields (four top-level, five under `_raw`). -/
structure OfferDict where
  offer_id : Option Int
  offer_name : String
  advertiser_name : String
  advertiser : String
  offer : String
  raw_name : String
  raw_offer_name : String
  raw_advertiser_name : String
  raw_advertiser : String
  raw_offer : String
deriving DecidableEq, Repr

/-- `possible_names` for an offer (`resolve_offer`, lines 257-268). -/
def possibleNames (o : OfferDict) : List String :=
  [o.offer_name, o.advertiser_name, o.advertiser, o.offer,
   o.raw_name, o.raw_offer_name, o.raw_advertiser_name, o.raw_advertiser,
   o.raw_offer]

/-- An affiliate dict as consumed by `resolve_affiliate`. -/
structure AffDict where
  affiliate_id : Option Int
  affiliate_name : String
  affiliate : String
  raw_affiliate_name : String
  raw_affiliate : String
deriving DecidableEq, Repr

/-- `possible_names` for an affiliate (`resolve_affiliate`, lines 123-129). -/
def affPossibleNames (a : AffDict) : List String :=
  [a.affiliate_name, a.affiliate, a.raw_affiliate_name, a.raw_affiliate]

/-- `_calculate_similarity`: lowercases both arguments, then takes the
`SequenceMatcher` ratio (abstract parameter `ratio`). -/
def calculate_similarity (ratio : String → String → ℚ) (s1 s2 : String) : ℚ :=
  ratio (pyLower s1) (pyLower s2)

/-- Inner field loop of `_find_similar_entities` (lines 54-68): the first
non-empty name field whose similarity meets the floor contributes the
entity once, with that similarity. -/
def firstSimilar (ratio : String → String → ℚ) (searchLower : String)
    (minSim : ℚ) : List String → Option ℚ
  | [] => none
  | n :: rest =>
    if n = "" then firstSimilar ratio searchLower minSim rest
    else
      let s := calculate_similarity ratio searchLower (pystrip (pyLower n))
      if minSim ≤ s then some s else firstSimilar ratio searchLower minSim rest

/-- `_find_similar_entities` (lines 30-72): collect per-entity similarity
hits, sort descending by similarity, keep `maxResults`. -/
def find_similar_entities {α : Type} (ratio : String → String → ℚ)
    (search_term : String) (entities : List α) (fields : α → List String)
    (minSim : ℚ) (maxResults : Nat) : List (α × ℚ) :=
  let searchLower := pystrip (pyLower search_term)
  let ms := entities.filterMap
    (fun e => (firstSimilar ratio searchLower minSim (fields e)).map (fun s => (e, s)))
  (List.insertionSort (fun a b => b.2 ≤ a.2) ms).take maxResults

/-- Python `round(x, 1)` over the rational model of floats. -/
def round1 (q : ℚ) : ℚ := ((round (10 * q) : ℤ) : ℚ) / 10

/-- A suggestion dict produced by `resolve_offer` (lines 381-388). -/
structure OfferSug where
  offer_id : Option Int
  offer_name : String
  similarity : ℚ
deriving DecidableEq, Repr

/-- `{"offer_id": ..., "offer_name": offer.get("offer_name",
offer.get("advertiser_name", "")), "similarity": round(sim * 100, 1)}`. -/
def offerSugOf (e : OfferDict × ℚ) : OfferSug :=
  { offer_id := e.1.offer_id
    offer_name := if e.1.offer_name ≠ "" then e.1.offer_name else e.1.advertiser_name
    similarity := round1 (100 * e.2) }

/-- The suggestion list computed in `resolve_offer` (lines 374-388). -/
def offer_suggestions_list (ratio : String → String → ℚ) (search_name : String)
    (offers : List OfferDict) : List OfferSug :=
  (find_similar_entities ratio search_name offers
    (fun o => [o.offer_name, o.advertiser_name, o.advertiser, o.offer])
    (1/2) 5).map offerSugOf

/-- A suggestion dict produced by `resolve_affiliate` (lines 180-187). -/
structure AffSug where
  affiliate_id : Option Int
  affiliate_name : String
  similarity : ℚ
deriving DecidableEq, Repr

/-- Affiliate suggestion entry (lines 180-187). -/
def affSugOf (e : AffDict × ℚ) : AffSug :=
  { affiliate_id := e.1.affiliate_id
    affiliate_name := if e.1.affiliate_name ≠ "" then e.1.affiliate_name else e.1.affiliate
    similarity := round1 (100 * e.2) }

/-- The suggestion list computed in `resolve_affiliate` (lines 173-187). -/
def aff_suggestions_list (ratio : String → String → ℚ) (search_name : String)
    (affiliates : List AffDict) : List AffSug :=
  (find_similar_entities ratio search_name affiliates
    (fun a => [a.affiliate_name, a.affiliate]) (1/2) 5).map affSugOf

/-- The per-name matching ladder of `resolve_offer` (lines 271-344):
exact on stripped-lowered forms, exact after `normalize_for_matching`,
containment both ways, all-significant-words containment, and
first-significant-word equality. -/
def rungHit (search_name n : String) : Bool :=
  let name_lower := pynorm n
  if name_lower == search_name then true
  else
    let sn := normalize_for_matching search_name
    let nn := normalize_for_matching name_lower
    if sn == nn then true
    else if pyIn sn nn then true
    else if pyIn nn sn then true
    else
      let search_words := (pywords sn.data).filter (fun w => 2 < w.length)
      if !search_words.isEmpty && search_words.all (fun w => containsSub w nn.data) then
        true
      else
        match search_words with
        | [] => false
        | fw :: _ =>
          match (pywords nn.data).filter (fun w => 2 < w.length) with
          | [] => false
          | nw :: _ => fw == nw

/-- `best_match`/`best_similarity` update (`if similarity >
best_similarity`), starting from `(None, 0.0)`. -/
def bestUpd {α : Type} (o : α) (s : ℚ) (b : Option α × ℚ) : Option α × ℚ :=
  if b.2 < s then (some o, s) else b

/-- Name loop of `resolve_offer` for one offer: first ladder hit returns
the offer id, otherwise the fuzzy best is updated with the similarity of
the normalized forms (line 347). -/
def scanOfferNames (ratio : String → String → ℚ) (search_name : String)
    (oid : Int) (o : OfferDict) (b : Option OfferDict × ℚ) :
    List String → Option Int × (Option OfferDict × ℚ)
  | [] => (none, b)
  | n :: rest =>
    if n = "" then scanOfferNames ratio search_name oid o b rest
    else if rungHit search_name n then (some oid, b)
    else
      let s := calculate_similarity ratio (normalize_for_matching search_name)
        (normalize_for_matching (pynorm n))
      scanOfferNames ratio search_name oid o (bestUpd o s b) rest

/-- Offer loop of `resolve_offer` (lines 250-350): offers with falsy
`offer_id` are skipped; the first ladder hit wins. -/
def scanOffers (ratio : String → String → ℚ) (search_name : String)
    (b : Option OfferDict × ℚ) : List OfferDict → Option Int × (Option OfferDict × ℚ)
  | [] => (none, b)
  | o :: rest =>
    match o.offer_id with
    | some oid =>
      if oid ≠ 0 then
        match scanOfferNames ratio search_name oid o b (possibleNames o) with
        | (some i, b') => (some i, b')
        | (none, b') => scanOffers ratio search_name b' rest
      else scanOffers ratio search_name b rest
    | none => scanOffers ratio search_name b rest

/-- Mutable state of one resolver instance, restricted to the offer
cache; a cached value is exactly what Python stores
(`self._offer_cache[search_name]`, possibly `None` via the
perfect-match path).  `fetchCount` counts `client.get_offers` calls and
is observational instrumentation, not program state. -/
structure OfferResolverState where
  cache : List (String × Option Int)
  fetchCount : Nat
deriving DecidableEq, Repr

/-- Association-list lookup, first binding wins (Python dict lookup). -/
def alookup {β : Type} : List (String × β) → String → Option β
  | [], _ => none
  | (k, v) :: rest, key => if k = key then some v else alookup rest key

/-- Association-list store (`d[k] = v`): replace the binding in place or
append a new one. -/
def ainsert {β : Type} : List (String × β) → String → β → List (String × β)
  | [], key, v => [(key, v)]
  | (k, w) :: rest, key, v =>
    if k = key then (key, v) :: rest else (k, w) :: ainsert rest key v

/-- The no-confident-match tail of `resolve_offer` (lines 371-402):
build suggestions, auto-use a perfect (≥ 100.0) suggestion, otherwise
return `None` (with the ranked list only when `return_suggestions`). -/
def resolveOfferSuggPhase (ratio : String → String → ℚ) (offers : List OfferDict)
    (return_suggestions : Bool) (st : OfferResolverState) (search_name : String) :
    Option Int × List OfferSug × OfferResolverState :=
  let suggestions_list := offer_suggestions_list ratio search_name offers
  match suggestions_list.find? (fun s => decide ((100 : ℚ) ≤ s.similarity)) with
  | some p =>
    (p.offer_id, [], { st with cache := ainsert st.cache search_name p.offer_id })
  | none =>
    if return_suggestions then (none, suggestions_list, st) else (none, [], st)

/-- `EntityResolver.resolve_offer` (lines 200-410).  `offers` is the
snapshot returned by `self.client.get_offers(limit=None)` (which never
raises — it catches internally and returns `[]`), `return_suggestions`
the flag parameter.  Result: (resolved id or `None`, suggestions list,
state after the call). -/
def resolve_offer (ratio : String → String → ℚ) (offers : List OfferDict)
    (return_suggestions : Bool) (st : OfferResolverState) (value : Int ⊕ String) :
    Option Int × List OfferSug × OfferResolverState :=
  match value with
  | .inl i => (some i, [], st)
  | .inr v =>
    let search_name := pynorm v
    match alookup st.cache search_name with
    | some cached => (cached, [], st)
    | none =>
      match get_offer_by_name v with
      | some t =>
        (some t.1, [], { st with cache := ainsert st.cache search_name (some t.1) })
      | none =>
        let st₁ : OfferResolverState :=
          { st with fetchCount := st.fetchCount + 1 }
        match scanOffers ratio search_name (none, 0) offers with
        | (some oid, _) =>
          (some oid, [], { st₁ with cache := ainsert st₁.cache search_name (some oid) })
        | (none, (bm, bs)) =>
          match bm with
          | some b =>
            if 85/100 ≤ bs then
              let oid := b.offer_id.getD 0
              (some oid, [],
                { st₁ with cache := ainsert st₁.cache search_name (some oid) })
            else
              resolveOfferSuggPhase ratio offers return_suggestions st₁ search_name
          | none =>
            resolveOfferSuggPhase ratio offers return_suggestions st₁ search_name

/-- Per-name matching of `resolve_affiliate` (lines 132-161): exact on
stripped-lowered forms, then containment either way, else a fuzzy-best
update with the similarity of the stripped-lowered forms. -/
def affRungHit (search_name n : String) : Bool :=
  let name_lower := pynorm n
  if name_lower == search_name then true
  else pyIn search_name name_lower || pyIn name_lower search_name

/-- Name loop of `resolve_affiliate` for one affiliate. -/
def scanAffNames (ratio : String → String → ℚ) (search_name : String)
    (aid : Int) (a : AffDict) (b : Option AffDict × ℚ) :
    List String → Option Int × (Option AffDict × ℚ)
  | [] => (none, b)
  | n :: rest =>
    if n = "" then scanAffNames ratio search_name aid a b rest
    else if affRungHit search_name n then (some aid, b)
    else
      let s := calculate_similarity ratio search_name (pynorm n)
      scanAffNames ratio search_name aid a (bestUpd a s b) rest

/-- Affiliate loop of `resolve_affiliate` (lines 117-161). -/
def scanAffs (ratio : String → String → ℚ) (search_name : String)
    (b : Option AffDict × ℚ) : List AffDict → Option Int × (Option AffDict × ℚ)
  | [] => (none, b)
  | a :: rest =>
    match a.affiliate_id with
    | some aid =>
      if aid ≠ 0 then
        match scanAffNames ratio search_name aid a b (affPossibleNames a) with
        | (some i, b') => (some i, b')
        | (none, b') => scanAffs ratio search_name b' rest
      else scanAffs ratio search_name b rest
    | none => scanAffs ratio search_name b rest

/-- Mutable state of one resolver instance, affiliate cache. -/
structure AffResolverState where
  cache : List (String × Option Int)
  fetchCount : Nat
deriving DecidableEq, Repr

/-- `EntityResolver.resolve_affiliate` (lines 74-198); structure mirrors
`resolve_offer` without the normalized/word rungs and without the
perfect-suggestion auto-use. -/
def resolve_affiliate (ratio : String → String → ℚ) (affiliates : List AffDict)
    (return_suggestions : Bool) (st : AffResolverState) (value : Int ⊕ String) :
    Option Int × List AffSug × AffResolverState :=
  match value with
  | .inl i => (some i, [], st)
  | .inr v =>
    let search_name := pynorm v
    match alookup st.cache search_name with
    | some cached => (cached, [], st)
    | none =>
      match get_affiliate_by_name v with
      | some t =>
        (some t.1, [], { st with cache := ainsert st.cache search_name (some t.1) })
      | none =>
        let st₁ : AffResolverState :=
          { st with fetchCount := st.fetchCount + 1 }
        match scanAffs ratio search_name (none, 0) affiliates with
        | (some aid, _) =>
          (some aid, [], { st₁ with cache := ainsert st₁.cache search_name (some aid) })
        | (none, (bm, bs)) =>
          match bm with
          | some b =>
            if 85/100 ≤ bs then
              let aid := b.affiliate_id.getD 0
              (some aid, [],
                { st₁ with cache := ainsert st₁.cache search_name (some aid) })
            else
              let suggestions_list := aff_suggestions_list ratio search_name affiliates
              if return_suggestions then (none, suggestions_list, st₁)
              else (none, [], st₁)
          | none =>
            let suggestions_list := aff_suggestions_list ratio search_name affiliates
            if return_suggestions then (none, suggestions_list, st₁)
            else (none, [], st₁)

/- ## `resolve_country` suggestion builder (lines 538-564)

The entries of `countries_list` assembled earlier in `resolve_country`:
`{"code": ..., "name": ..., "possible_names": [...]}`. -/

/-- One entry of `countries_list`. -/
structure CountryItem where
  code : Option String
  name : String
  possible_names : List String
deriving DecidableEq, Repr

/-- A country suggestion dict (lines 556-560). -/
structure CountrySug where
  country_code : String
  country_name : String
  similarity : ℚ
deriving DecidableEq, Repr

/-- `max_sim` loop (lines 548-553): maximum similarity of the search term
against the display name and every possible name, skipping falsy names. -/
def countryMaxSim (ratio : String → String → ℚ) (search_term : String)
    (names : List String) : ℚ :=
  names.foldl
    (fun m n => if n = "" then m
      else max m (calculate_similarity ratio search_term (pyLower n))) 0

/-- The suggestion list built by `resolve_country` on failed resolution
(lines 538-564): entries at or above the 0.5 floor, sorted descending by
the rounded percentage, capped at 5. -/
def country_suggestions_list (ratio : String → String → ℚ) (search_term : String)
    (countries_list : List CountryItem) : List CountrySug :=
  let raw := countries_list.filterMap (fun item =>
    match item.code with
    | none => none
    | some code =>
      if code = "" then none
      else
        let maxSim := countryMaxSim ratio search_term (item.name :: item.possible_names)
        if 1/2 ≤ maxSim then
          some { country_code := code, country_name := item.name
                 similarity := round1 (100 * maxSim) }
        else none)
  (List.insertionSort (fun a b => b.similarity ≤ a.similarity) raw).take 5

/- ## Rung 2 of the matching ladder in isolation

`resolve_offer` lines 287-299: after the raw exact match fails, the
query's `search_name` and the candidate's `name_lower` are both passed
through `normalize_for_matching` and compared for equality.  `rung2_find`
returns the id of the first offer (in fetch order) having a non-empty
name field whose normalized form equals the normalized query. -/

/-- Name loop for the rung-2 matcher, keyed by the precomputed
normalized form of the query. -/
def rung2Names (searchNormalized : String) (oid : Int) : List String → Option Int
  | [] => none
  | n :: rest =>
    if n = "" then rung2Names searchNormalized oid rest
    else if normalize_for_matching (pynorm n) == searchNormalized then some oid
    else rung2Names searchNormalized oid rest

/-- Offer loop for the rung-2 matcher over a precomputed key. -/
def rung2Core (searchNormalized : String) : List OfferDict → Option Int
  | [] => none
  | o :: rest =>
    match o.offer_id with
    | some oid =>
      if oid ≠ 0 then
        match rung2Names searchNormalized oid (possibleNames o) with
        | some i => some i
        | none => rung2Core searchNormalized rest
      else rung2Core searchNormalized rest
    | none => rung2Core searchNormalized rest

/-- Exact-match resolution by ladder rung 2 alone: normalize the query
the way `resolve_offer` does (`str(value).strip().lower()`, then
`normalize_for_matching`) and scan the catalog. -/
def rung2_find (offers : List OfferDict) (q : String) : Option Int :=
  rung2Core (normalize_for_matching (pynorm q)) offers

/- ## `resolve_filters` (lines 612-696)

The bundle is a Python dict `str → value`; values relevant here are ints
(ids) and strings (names), modelled by `Value`.  The three `self.resolve_*
(x, return_suggestions=True)` calls are oracles: `resolve_filters`'s own
logic depends only on the pairs they return, and the three underlying
caches are disjoint, so the calls are independent. -/

/-- A Python dict value occurring in a filter bundle. -/
inductive Value where
  | int (n : Int)
  | str (s : String)
deriving DecidableEq, Repr

/-- `str(value)` as used by f-string interpolation. -/
def Value.toDisplay : Value → String
  | .int n => toString n
  | .str s => s

/-- Association-list delete (`del d[k]`). -/
def aerase {β : Type} : List (String × β) → String → List (String × β)
  | [], _ => []
  | (k, v) :: rest, key => if k = key then rest else (k, v) :: aerase rest key

/-- Python truthiness of a resolved country code (`if country_code:`). -/
def truthyOptStr : Option String → Bool
  | none => false
  | some s => s != ""

/-- f-string rendering of `sug["offer_id"]` (an id or `None`). -/
def fmtOptInt : Option Int → String
  | some n => toString n
  | none => "None"

/-- One suggestion line of the offer error message (line 645). -/
def offerSugLine (s : OfferSug) : String :=
  "\n- " ++ s.offer_name ++ " (ID: " ++ fmtOptInt s.offer_id ++ ", "
    ++ toString s.similarity ++ "% match)"

/-- The per-field error message for a failed offer name (lines 641-646). -/
def offer_err_msg (name : Value) (suggestions : List OfferSug) : String :=
  let base := "Could not find offer: " ++ name.toDisplay
  if suggestions.isEmpty then base
  else (suggestions.take 5).foldl (fun m s => m ++ offerSugLine s)
    (base ++ "\n\nDid you mean one of these?")

/-- One suggestion line of the affiliate error message (line 660). -/
def affSugLine (s : AffSug) : String :=
  "\n- " ++ s.affiliate_name ++ " (ID: " ++ fmtOptInt s.affiliate_id ++ ", "
    ++ toString s.similarity ++ "% match)"

/-- The per-field error message for a failed affiliate name (lines 656-661). -/
def aff_err_msg (name : Value) (suggestions : List AffSug) : String :=
  let base := "Could not find affiliate: " ++ name.toDisplay
  if suggestions.isEmpty then base
  else (suggestions.take 5).foldl (fun m s => m ++ affSugLine s)
    (base ++ "\n\nDid you mean one of these?")

/-- One suggestion line of the country error message (line 675). -/
def countrySugLine (s : CountrySug) : String :=
  "\n- " ++ s.country_name ++ " (" ++ s.country_code ++ ", "
    ++ toString s.similarity ++ "% match)"

/-- The per-field error message for a failed country name (lines 671-676). -/
def country_err_msg (name : Value) (suggestions : List CountrySug) : String :=
  let base := "Could not find country: " ++ name.toDisplay
  if suggestions.isEmpty then base
  else (suggestions.take 5).foldl (fun m s => m ++ countrySugLine s)
    (base ++ "\n\nDid you mean one of these?")

/-- The error message of the plain-`country` branch (lines 685-688),
which is only built when suggestions are non-empty. -/
def country_plain_err_msg (name : Value) (suggestions : List CountrySug) : String :=
  (suggestions.take 5).foldl (fun m s => m ++ countrySugLine s)
    ("Could not find country: " ++ name.toDisplay ++ "\n\nDid you mean one of these?")

/-- `"\n\n".join(errors)`. -/
def joinErrors : List String → String
  | [] => ""
  | [e] => e
  | e :: es => e ++ "\n\n" ++ joinErrors es

/-- The three resolver calls `resolve_filters` makes, as oracles
returning exactly the pair each `resolve_*(·, return_suggestions=True)`
returns. -/
structure ResolverOracles where
  resOffer : Value → Option Int × List OfferSug
  resAff : Value → Option Int × List AffSug
  resCountry : Value → Option String × List CountrySug

/-- A filter bundle (Python dict). -/
abbrev Bundle := List (String × Value)

/-- `offer_name → offer_id` rewrite step (lines 634-646). -/
def offerStep (orc : ResolverOracles) (resolved : Bundle) : Bundle × List String :=
  match alookup resolved "offer_name" with
  | none => (resolved, [])
  | some v =>
    let r := orc.resOffer v
    if truthyOptInt r.1 then
      (aerase (ainsert resolved "offer_id" (.int (r.1.getD 0))) "offer_name", [])
    else (resolved, [offer_err_msg v r.2])

/-- `affiliate_name → affiliate_id` rewrite step (lines 649-661). -/
def affStep (orc : ResolverOracles) (resolved : Bundle) : Bundle × List String :=
  match alookup resolved "affiliate_name" with
  | none => (resolved, [])
  | some v =>
    let r := orc.resAff v
    if truthyOptInt r.1 then
      (aerase (ainsert resolved "affiliate_id" (.int (r.1.getD 0))) "affiliate_name", [])
    else (resolved, [aff_err_msg v r.2])

/-- `country_name`/`country → country_code` rewrite step (lines 664-690):
`country_name` failures always error; a plain `country` failure errors
only when suggestions are non-empty (it might already be a code). -/
def countryStep (orc : ResolverOracles) (resolved : Bundle) : Bundle × List String :=
  match alookup resolved "country_name" with
  | some v =>
    let r := orc.resCountry v
    if truthyOptStr r.1 then
      (aerase (ainsert resolved "country_code" (.str (r.1.getD ""))) "country_name", [])
    else (resolved, [country_err_msg v r.2])
  | none =>
    match alookup resolved "country" with
    | some v =>
      if (alookup resolved "country_code").isNone then
        let r := orc.resCountry v
        if truthyOptStr r.1 then
          (aerase (ainsert resolved "country_code" (.str (r.1.getD ""))) "country", [])
        else if !r.2.isEmpty then (resolved, [country_plain_err_msg v r.2])
        else (resolved, [])
      else (resolved, [])
    | none => (resolved, [])

/-- `EntityResolver.resolve_filters` (lines 612-696): rewrite each name
field, collecting per-field error messages, and raise (`.error`) a single
aggregated `ValueError` after all fields were attempted. -/
def resolve_filters (orc : ResolverOracles) (filters : Bundle) : Except String Bundle :=
  let s₁ := offerStep orc filters
  let s₂ := affStep orc s₁.1
  let s₃ := countryStep orc s₂.1
  let errors := s₁.2 ++ s₂.2 ++ s₃.2
  if errors.isEmpty then .ok s₃.1 else .error (joinErrors errors)

/- ## `everflow_api_validator.py`

`EndpointSpec`, the built-in default specification table
(`_load_default_specs`, lines 164-256), `_check_type` and
`validate_payload` (lines 314-395).  Payload values are Python runtime
values (`PyVal`); note that in Python `isinstance(True, int)` holds, so a
`bool` passes the `"integer"` and `"number"` checks. -/

/-- A Python runtime value in a request payload. -/
inductive PyVal where
  | str (s : String)
  | int (n : Int)
  | bool (b : Bool)
  | float
  | list (xs : List PyVal)
  | dict (kvs : List (String × PyVal))
  | pynone
deriving Repr

/-- `type(value).__name__`. -/
def PyVal.typeName : PyVal → String
  | .str _ => "str"
  | .int _ => "int"
  | .bool _ => "bool"
  | .float => "float"
  | .list _ => "list"
  | .dict _ => "dict"
  | .pynone => "NoneType"

/-- The `EndpointSpec` dataclass (lines 20-31). -/
structure EndpointSpec where
  path : String
  method : String
  description : String
  required_params : List String
  optional_params : List String
  param_types : List (String × String)
  response_fields : List String
  deprecated : Bool
  alternative : Option String
deriving Repr

/-- The `ValidationResult` dataclass (lines 34-40). -/
structure ValidationResult where
  valid : Bool
  errors : List String
  warnings : List String
  suggestions : List String
deriving Repr

/-- `_check_type` (lines 381-395): `isinstance`-based check by declared
type name; unknown type names pass. -/
def check_type (v : PyVal) (expected : String) : Bool :=
  if expected = "string" then (match v with | .str _ => true | _ => false)
  else if expected = "integer" then
    (match v with | .int _ => true | .bool _ => true | _ => false)
  else if expected = "boolean" then (match v with | .bool _ => true | _ => false)
  else if expected = "array" then (match v with | .list _ => true | _ => false)
  else if expected = "object" then (match v with | .dict _ => true | _ => false)
  else if expected = "number" then
    (match v with | .int _ => true | .bool _ => true | .float => true | _ => false)
  else true

/-- The default specification table (`_load_default_specs`). -/
def default_specs : List (String × EndpointSpec) :=
  [("/v1/networks/reporting/entity",
    { path := "/v1/networks/reporting/entity", method := "POST"
      description := "Entity reporting with grouping and filtering"
      required_params := ["columns", "from", "to", "timezone_id"]
      optional_params := ["query", "currency_id", "page", "page_size"]
      param_types := [("columns", "array"), ("from", "string"), ("to", "string"),
        ("timezone_id", "integer"), ("currency_id", "string"),
        ("page", "integer"), ("page_size", "integer")]
      response_fields := ["table", "paging", "summary"]
      deprecated := false, alternative := none }),
   ("/v1/networks/reporting/entity/table/export",
    { path := "/v1/networks/reporting/entity/table/export", method := "POST"
      description := "Export entity reports to CSV"
      required_params := ["columns", "from", "to", "timezone_id"]
      optional_params := ["query", "currency_id", "format"]
      param_types := [("columns", "array"), ("from", "string"), ("to", "string"),
        ("timezone_id", "integer"), ("format", "string")]
      response_fields := ["export_id", "download_url"]
      deprecated := false, alternative := none }),
   ("/v1/networks/reporting/conversions",
    { path := "/v1/networks/reporting/conversions", method := "POST"
      description := "Fetch conversion data"
      required_params := ["from", "to", "timezone_id", "show_conversions"]
      optional_params := ["show_events", "query", "page", "page_size"]
      param_types := [("from", "string"), ("to", "string"),
        ("timezone_id", "integer"), ("show_conversions", "boolean"),
        ("show_events", "boolean"), ("page", "integer"), ("page_size", "integer")]
      response_fields := ["conversions", "paging", "summary"]
      deprecated := false, alternative := none }),
   ("/v1/networks/affiliates",
    { path := "/v1/networks/affiliates", method := "GET"
      description := "Get list of affiliates"
      required_params := []
      optional_params := ["page", "limit"]
      param_types := [("page", "integer"), ("limit", "integer")]
      response_fields := ["affiliates", "paging"]
      deprecated := false, alternative := none }),
   ("/v1/networks/offers",
    { path := "/v1/networks/offers", method := "GET"
      description := "Get list of offers"
      required_params := []
      optional_params := ["page", "limit"]
      param_types := [("page", "integer"), ("limit", "integer")]
      response_fields := ["offers", "paging"]
      deprecated := false, alternative := none }),
   ("/v1/networks/reporting/conversions/export",
    { path := "/v1/networks/reporting/conversions/export", method := "POST"
      description := "Export conversion reports to CSV"
      required_params := ["from", "to", "timezone_id"]
      optional_params := ["query", "format", "show_conversions", "show_events"]
      param_types := [("from", "string"), ("to", "string"),
        ("timezone_id", "integer"), ("format", "string"),
        ("show_conversions", "boolean"), ("show_events", "boolean")]
      response_fields := ["export_id", "download_url"]
      deprecated := false, alternative := none })]

/-- Missing-required-parameter errors (lines 339-341), in
`required_params` order. -/
def missing_param_errors (spec : EndpointSpec)
    (payload : List (String × PyVal)) : List String :=
  spec.required_params.filterMap (fun p =>
    if (alookup payload p).isNone then some ("Missing required parameter: " ++ p)
    else none)

/-- Type-mismatch errors (lines 344-351), in `param_types` order. -/
def type_mismatch_errors (spec : EndpointSpec)
    (payload : List (String × PyVal)) : List String :=
  spec.param_types.filterMap (fun pt =>
    match alookup payload pt.1 with
    | none => none
    | some v =>
      if check_type v pt.2 then none
      else some ("Parameter \x27" ++ pt.1 ++ "\x27 has wrong type: expected "
        ++ pt.2 ++ ", got " ++ v.typeName))

/-- Unknown-parameter warnings (lines 354-357), in payload order. -/
def unknown_param_warnings (spec : EndpointSpec)
    (payload : List (String × PyVal)) : List String :=
  payload.filterMap (fun kv =>
    if (spec.required_params ++ spec.optional_params).contains kv.1 then none
    else some ("Unknown parameter: " ++ kv.1 ++ " (may be ignored by API)"))

/-- The special structural check for `columns` (lines 360-372): errors
and the per-offence format suggestion. -/
def columns_errors (payload : List (String × PyVal)) : List String × List String :=
  match alookup payload "columns" with
  | none => ([], [])
  | some v =>
    match v with
    | .list cols =>
      let bad := cols.enum.filterMap (fun ic =>
        match ic.2 with
        | .dict kvs => if (alookup kvs "column").isSome then none else some ic.1
        | _ => some ic.1)
      (bad.map (fun i => "Column " ++ toString i
          ++ " must be an object with \x27column\x27 key, not a plain string"),
       bad.map (fun _ =>
        "Use format: [\x7b\"column\": \"offer\"\x7d, \x7b\"column\": \"affiliate\"\x7d]"))
    | _ => (["\x27columns\x27 must be an array"], [])

/-- `EverflowAPIValidator.validate_payload` (lines 314-379), with the
specification table passed explicitly (initialization state is out of
scope of the payload check itself). -/
def validate_payload (specs : List (String × EndpointSpec)) (endpoint : String)
    (payload : List (String × PyVal)) : ValidationResult :=
  match alookup specs endpoint with
  | none =>
    { valid := false
      errors := ["Cannot validate payload for unknown endpoint: " ++ endpoint]
      warnings := [], suggestions := [] }
  | some spec =>
    let missing := missing_param_errors spec payload
    let typeErrs := type_mismatch_errors spec payload
    let warnings := unknown_param_warnings spec payload
    let cols := columns_errors payload
    let errors := missing ++ typeErrs ++ cols.1
    { valid := errors.isEmpty, errors := errors
      warnings := warnings, suggestions := cols.2 }

/- ## Small fixtures used by concrete witnesses and counterexamples -/

/-- Substring-at-some-position relation on strings (used to state that
an aggregated error message embeds a given fragment). -/
def strHasSub (small big : String) : Prop :=
  ∃ u v, big.data = u ++ small.data ++ v

/-- Keys of a bundle/dict are pairwise distinct (Python dict invariant). -/
def nodupKeys {β : Type} (d : List (String × β)) : Prop :=
  (d.map Prod.fst).Nodup

/-- The shape C8 asserts of every suggestion list: at most 5 entries,
scores non-increasing, every presented score within `[0, 100]`. -/
def sortedCappedBounded {α : Type} (key : α → ℚ) (l : List α) : Prop :=
  l.length ≤ 5 ∧ List.Pairwise (fun a b => key b ≤ key a) l ∧
    ∀ s ∈ l, 0 ≤ key s ∧ key s ≤ 100

/-- Oracle where both the offer and the affiliate resolver report the
identifier `0`. -/
def c10_orc : ResolverOracles :=
  { resOffer := fun _ => (some 0, [])
    resAff := fun _ => (some 0, [])
    resCountry := fun _ => (none, []) }

/-- Bundle with an offer name and an affiliate name, for the C10
witness. -/
def c10_bundle : Bundle := [("offer_name", Value.str "X"), ("affiliate_name", Value.str "Y")]

/-- Oracle that resolves every offer name to 42 and every affiliate name
to 7. -/
def c5_orc : ResolverOracles :=
  { resOffer := fun _ => (some 42, [])
    resAff := fun _ => (some 7, [])
    resCountry := fun _ => (none, []) }

/-- Bundle holding an offer name together with another resolvable name
field. -/
def c5_bundle : Bundle := [("offer_name", Value.str "X"), ("affiliate_name", Value.str "Y")]

/-- The spec's own example bundle `{"offer_name": "X", "source_id": 1}`. -/
def c5w_bundle : Bundle := [("offer_name", Value.str "X"), ("source_id", Value.int 1)]

/-- Oracle whose country resolver fails with no suggestions. -/
def c4_orc : ResolverOracles :=
  { resOffer := fun _ => (none, [])
    resAff := fun _ => (none, [])
    resCountry := fun _ => (none, []) }

/-- Bundle whose only name field is a plain `country` entry. -/
def c4_bundle : Bundle := [("country", Value.str "Atlantis")]

/-- Oracle failing on all three entity kinds, with non-empty offer and
country suggestion lists, for the C4 witness. -/
def c4w_orc : ResolverOracles :=
  { resOffer := fun _ => (none, [{ offer_id := some 292
                                   offer_name := "Papoaolado - BR - DOI"
                                   similarity := 871/10 }])
    resAff := fun _ => (none, [])
    resCountry := fun _ => (none, [{ country_code := "BR"
                                     country_name := "Brazil"
                                     similarity := 90 }]) }

/-- Oracle resolving every name field, for the C4 no-raise witness. -/
def c4w_ok_orc : ResolverOracles :=
  { resOffer := fun _ => (some 292, [])
    resAff := fun _ => (some 1009, [])
    resCountry := fun _ => (some "BR", []) }

/-- Bundle with all three reporting name fields present. -/
def c4w_bundle : Bundle :=
  [("offer_name", Value.str "Papoalado"), ("affiliate_name", Value.str "iMonetize"),
   ("country_name", Value.str "Brasil"), ("source_id", Value.int 134505)]

/-- Bundle whose only name field is a plain `country` entry (no
`country_name`, no `country_code`). -/
def c4w_country_bundle : Bundle := [("country", Value.str "Brasil")]

/-- A raw affiliate record with a valid id. -/
def c1_raw_aff : RawAff :=
  { network_affiliate_id := some 1, name := some "A", account_status := none }

/-- Affiliate upstream whose page 1 is full and whose page 2 raises a
network error. -/
def c1_aff_fetch : Nat → Except String AffPage := fun p =>
  if p = 1 then .ok { affiliates := List.replicate 50 c1_raw_aff, total_count := 0 }
  else .error "API Error: connection reset"

/-- A raw offer record with a valid id. -/
def c1_raw_offer : RawOffer :=
  { network_offer_id := some 1, name := some "O"
    network_advertiser_id := none, destination_url := none }

/-- Offer upstream whose page 1 is full and whose page 2 raises a
network error. -/
def c1_offer_fetch : Nat → Except String OfferPage := fun p =>
  if p = 1 then .ok { offers := List.replicate 50 c1_raw_offer, total_count := 0 }
  else .error "API Error: connection reset"

/-- Pathological affiliate upstream: every page is full, no total count. -/
def c3_aff_fetch : Nat → Except String AffPage := fun _ =>
  .ok { affiliates := List.replicate 50 c1_raw_aff, total_count := 0 }

/-- Pathological offer upstream: every page is full, no total count. -/
def c3_offer_fetch : Nat → Except String OfferPage := fun _ =>
  .ok { offers := List.replicate 50 c1_raw_offer, total_count := 0 }

/- ## Helper lemmas: association-list dictionaries -/

theorem alookup_ainsert_self {β : Type} (d : List (String × β)) (k : String) (v : β) :
    alookup (ainsert d k v) k = some v := by
  induction d with
  | nil => simp [ainsert, alookup]
  | cons hd tl ih =>
    by_cases h : hd.1 = k
    · simp [ainsert, alookup, h]
    · simpa [ainsert, alookup, h] using ih

theorem alookup_ainsert_of_ne {β : Type} (d : List (String × β)) (k k' : String)
    (v : β) (h : k' ≠ k) : alookup (ainsert d k v) k' = alookup d k' := by
  induction d with
  | nil => simp [ainsert, alookup, h.symm]
  | cons hd tl ih =>
    by_cases hk : hd.1 = k
    · subst hk
      simp [ainsert, alookup, h.symm]
    · by_cases hk' : hd.1 = k'
      · simp [ainsert, alookup, hk, hk', h]
      · simpa [ainsert, alookup, hk, hk'] using ih

theorem alookup_aerase_of_ne {β : Type} (d : List (String × β)) (k k' : String)
    (h : k' ≠ k) : alookup (aerase d k) k' = alookup d k' := by
  induction d with
  | nil => simp [aerase]
  | cons hd tl ih =>
    by_cases hk : hd.1 = k
    · subst hk
      simp [aerase, alookup, h.symm]
    · by_cases hk' : hd.1 = k'
      · simp [aerase, alookup, hk, hk', h]
      · simpa [aerase, alookup, hk, hk'] using ih

theorem alookup_eq_none_of_not_mem_keys {β : Type} (d : List (String × β))
    (k : String) (h : k ∉ d.map Prod.fst) : alookup d k = none := by
  induction d with
  | nil => simp [alookup]
  | cons hd tl ih =>
    simp only [List.map_cons, List.mem_cons] at h
    push_neg at h
    simpa [alookup, h.1.symm] using ih h.2

theorem alookup_aerase_self {β : Type} (d : List (String × β)) (k : String)
    (h : nodupKeys d) : alookup (aerase d k) k = none := by
  induction d with
  | nil => simp [aerase, alookup]
  | cons hd tl ih =>
    simp only [nodupKeys, List.map_cons, List.nodup_cons] at h
    by_cases hk : hd.1 = k
    · subst hk
      rw [show aerase (hd :: tl) hd.1 = tl from by simp [aerase]]
      exact alookup_eq_none_of_not_mem_keys tl hd.1 h.1
    · simpa [aerase, alookup, hk] using ih h.2

theorem keys_ainsert_subset {β : Type} (d : List (String × β)) (k : String) (v : β) :
    ∀ x, x ∈ (ainsert d k v).map Prod.fst → x ∈ d.map Prod.fst ∨ x = k := by
  induction d with
  | nil =>
    intro x hx
    rw [show ainsert ([] : List (String × β)) k v = [(k, v)] from rfl] at hx
    right
    simpa using hx
  | cons hd tl ih =>
    intro x hx
    by_cases hk : hd.1 = k
    · rw [show ainsert (hd :: tl) k v = (k, v) :: tl from by simp [ainsert, hk]] at hx
      rw [List.map_cons, List.mem_cons] at hx
      rcases hx with hx | hx
      · right; exact hx
      · left; rw [List.map_cons, List.mem_cons]; right; exact hx
    · rw [show ainsert (hd :: tl) k v = hd :: ainsert tl k v from by simp [ainsert, hk]] at hx
      rw [List.map_cons, List.mem_cons] at hx
      rcases hx with hx | hx
      · left; rw [List.map_cons, List.mem_cons]; left; exact hx
      · rcases ih x hx with h' | h'
        · left; rw [List.map_cons, List.mem_cons]; right; exact h'
        · right; exact h'

theorem nodupKeys_ainsert {β : Type} (d : List (String × β)) (k : String) (v : β)
    (h : nodupKeys d) : nodupKeys (ainsert d k v) := by
  induction d with
  | nil => simp [ainsert, nodupKeys]
  | cons hd tl ih =>
    simp only [nodupKeys, List.map_cons, List.nodup_cons] at h
    by_cases hk : hd.1 = k
    · subst hk
      simpa [ainsert, nodupKeys] using h
    · have := ih h.2
      simp only [ainsert, if_neg hk, nodupKeys, List.map_cons, List.nodup_cons]
      refine ⟨fun hmem => ?_, this⟩
      rcases keys_ainsert_subset tl k v hd.1 hmem with h' | h'
      · exact h.1 h'
      · exact hk h'

/- ## Claim theorems -/

/-- C6: for every input value that is already the entity's native
identifier type (an `int` for `resolve_affiliate` and `resolve_offer`),
resolution returns that value unchanged, and the resolver state —
including the cache and the collection-fetch counter — is untouched: no
cache lookup result is consulted, no fetch and no network call happens
(the `isinstance(value, int)` fast path returns before either). -/
theorem c6_native_id_passthrough (ratio : String → String → ℚ)
    (offers : List OfferDict) (affiliates : List AffDict) (rs : Bool)
    (sto : OfferResolverState) (sta : AffResolverState) (i : Int) :
    resolve_offer ratio offers rs sto (.inl i) = (some i, [], sto) ∧
    resolve_affiliate ratio affiliates rs sta (.inl i) = (some i, [], sta) :=
  ⟨rfl, rfl⟩

/-- C9: `validate_payload` against the default specification for
`/v1/networks/reporting/conversions/export` — whose required parameters
are exactly `["from","to","timezone_id"]` — and the payload
`{"from": "2024-01-01"}` yields an invalid result with exactly two
missing-required-parameter errors (`to`, `timezone_id`) and zero
type-mismatch errors. -/
theorem c9_validate_payload_missing_params :
    ∃ spec, alookup default_specs "/v1/networks/reporting/conversions/export" = some spec ∧
      spec.required_params = ["from", "to", "timezone_id"] ∧
      missing_param_errors spec [("from", PyVal.str "2024-01-01")] =
        ["Missing required parameter: to", "Missing required parameter: timezone_id"] ∧
      type_mismatch_errors spec [("from", PyVal.str "2024-01-01")] = [] ∧
      validate_payload default_specs "/v1/networks/reporting/conversions/export"
          [("from", PyVal.str "2024-01-01")] =
        { valid := false
          errors := ["Missing required parameter: to",
                     "Missing required parameter: timezone_id"]
          warnings := [], suggestions := [] } :=
  ⟨_, rfl, rfl, rfl, rfl, rfl⟩

/- ## Helper lemmas: substrings of joined error messages -/

theorem strHasSub_self (m : String) : strHasSub m m := ⟨[], [], by simp⟩

theorem strHasSub_append_left (m t s : String) (h : strHasSub m t) :
    strHasSub m (s ++ t) := by
  obtain ⟨u, w, hw⟩ := h
  exact ⟨s.data ++ u, w, by simp [hw]⟩

theorem strHasSub_append_right (m s t : String) (h : strHasSub m s) :
    strHasSub m (s ++ t) := by
  obtain ⟨u, w, hw⟩ := h
  exact ⟨u, w ++ t.data, by simp [hw]⟩

theorem strHasSub_joinErrors (m : String) :
    ∀ es : List String, m ∈ es → strHasSub m (joinErrors es)
  | [], h => absurd h (List.not_mem_nil m)
  | [e], h => by
    rcases List.mem_singleton.mp h with rfl
    exact strHasSub_self m
  | e :: e' :: rest, h => by
    rcases List.mem_cons.mp h with rfl | h'
    · have : joinErrors (m :: e' :: rest) = m ++ "\n\n" ++ joinErrors (e' :: rest) := rfl
      rw [this]
      exact strHasSub_append_right _ _ _ (strHasSub_append_right _ _ _ (strHasSub_self m))
    · have : joinErrors (e :: e' :: rest) = e ++ "\n\n" ++ joinErrors (e' :: rest) := rfl
      rw [this, String.append_assoc]
      exact strHasSub_append_left _ _ _
        (strHasSub_append_left _ _ _ (strHasSub_joinErrors m (e' :: rest) h'))

theorem offerStep_fst_preserves (orc : ResolverOracles) (resolved : Bundle)
    (k : String) (h1 : k ≠ "offer_name") (h2 : k ≠ "offer_id") :
    alookup (offerStep orc resolved).1 k = alookup resolved k := by
  unfold offerStep
  cases hv : alookup resolved "offer_name" with
  | none => rfl
  | some v =>
    simp only []
    split
    · simp only []
      rw [alookup_aerase_of_ne _ _ _ h1, alookup_ainsert_of_ne _ _ _ _ h2]
    · rfl

theorem affStep_fst_preserves (orc : ResolverOracles) (resolved : Bundle)
    (k : String) (h1 : k ≠ "affiliate_name") (h2 : k ≠ "affiliate_id") :
    alookup (affStep orc resolved).1 k = alookup resolved k := by
  unfold affStep
  cases hv : alookup resolved "affiliate_name" with
  | none => rfl
  | some v =>
    simp only []
    split
    · simp only []
      rw [alookup_aerase_of_ne _ _ _ h1, alookup_ainsert_of_ne _ _ _ _ h2]
    · rfl

theorem resolve_filters_error_of_mem (orc : ResolverOracles) (filters : Bundle)
    (msg : String)
    (hm : msg ∈ (offerStep orc filters).2 ++ (affStep orc (offerStep orc filters).1).2 ++
      (countryStep orc (affStep orc (offerStep orc filters).1).1).2) :
    ∃ e, resolve_filters orc filters = .error e ∧ strHasSub msg e := by
  refine ⟨joinErrors ((offerStep orc filters).2 ++
      (affStep orc (offerStep orc filters).1).2 ++
      (countryStep orc (affStep orc (offerStep orc filters).1).1).2), ?_,
    strHasSub_joinErrors _ _ hm⟩
  rw [resolve_filters]
  rw [if_neg]
  intro hh
  rw [List.isEmpty_iff] at hh
  exact (List.ne_nil_of_mem hm) hh

/-- C10 (implicit): `resolve_filters` tests resolved identifiers for
truthiness (`if offer_id:` at line 637, `if affiliate_id:` at line 652),
so a name field — `offer_name` or `affiliate_name` — that resolves to
the identifier `0` is handled exactly like a not-found result: the
bundle is processed identically to an oracle answering "not found" with
the same suggestions, the name key is not rewritten, and the aggregated
bundle error (embedding the field's error message) is raised even
though resolution returned an identifier. -/
theorem c10_zero_id_like_not_found (orc : ResolverOracles) (filters : Bundle) :
    (∀ v s, alookup filters "offer_name" = some v → orc.resOffer v = (some 0, s) →
      (∃ e, resolve_filters orc filters = .error e ∧
        strHasSub (offer_err_msg v s) e) ∧
      resolve_filters orc filters =
        resolve_filters
          { resOffer := fun _ => (none, s)
            resAff := orc.resAff, resCountry := orc.resCountry } filters) ∧
    (∀ v s, alookup filters "affiliate_name" = some v → orc.resAff v = (some 0, s) →
      (∃ e, resolve_filters orc filters = .error e ∧
        strHasSub (aff_err_msg v s) e) ∧
      resolve_filters orc filters =
        resolve_filters
          { resOffer := orc.resOffer
            resAff := fun _ => (none, s), resCountry := orc.resCountry } filters) := by
  constructor
  · intro v s hv ho
    have hOffer : offerStep orc filters = (filters, [offer_err_msg v s]) := by
      simp [offerStep, hv, ho, truthyOptInt]
    have hOffer' : offerStep
        { resOffer := fun _ => (none, s)
          resAff := orc.resAff, resCountry := orc.resCountry } filters =
        (filters, [offer_err_msg v s]) := by
      simp [offerStep, hv, truthyOptInt]
    constructor
    · apply resolve_filters_error_of_mem
      rw [hOffer]
      simp
    · rw [resolve_filters, resolve_filters, hOffer, hOffer']
      rfl
  · intro v s hv ho
    have hl : alookup (offerStep orc filters).1 "affiliate_name" = some v := by
      rw [offerStep_fst_preserves orc filters "affiliate_name" (by decide) (by decide)]
      exact hv
    have hAff : affStep orc (offerStep orc filters).1 =
        ((offerStep orc filters).1, [aff_err_msg v s]) := by
      simp [affStep, hl, ho, truthyOptInt]
    have hofeq : offerStep
        { resOffer := orc.resOffer
          resAff := fun _ => (none, s), resCountry := orc.resCountry } filters =
        offerStep orc filters := rfl
    have hAff' : affStep
        { resOffer := orc.resOffer
          resAff := fun _ => (none, s), resCountry := orc.resCountry }
        (offerStep orc filters).1 =
        ((offerStep orc filters).1, [aff_err_msg v s]) := by
      simp [affStep, hl, truthyOptInt]
    constructor
    · apply resolve_filters_error_of_mem
      rw [hAff]
      simp
    · rw [resolve_filters, resolve_filters, hofeq, hAff, hAff']
      rfl

/-- Witness for C10: a concrete oracle answering `0` for both the offer
name and the affiliate name of the bundle. -/
theorem c10_zero_id_like_not_found_witness :
    ((∃ e, resolve_filters c10_orc c10_bundle = .error e ∧
        strHasSub (offer_err_msg (Value.str "X") []) e) ∧
      resolve_filters c10_orc c10_bundle =
        resolve_filters
          { resOffer := fun _ => (none, [])
            resAff := c10_orc.resAff, resCountry := c10_orc.resCountry } c10_bundle) ∧
    ((∃ e, resolve_filters c10_orc c10_bundle = .error e ∧
        strHasSub (aff_err_msg (Value.str "Y") []) e) ∧
      resolve_filters c10_orc c10_bundle =
        resolve_filters
          { resOffer := c10_orc.resOffer
            resAff := fun _ => (none, []), resCountry := c10_orc.resCountry } c10_bundle) :=
  ⟨(c10_zero_id_like_not_found c10_orc c10_bundle).1 (Value.str "X") [] rfl rfl,
   (c10_zero_id_like_not_found c10_orc c10_bundle).2 (Value.str "Y") [] rfl rfl⟩

/-- Counterexample to C5 as stated: in the bundle
`{"offer_name": "X", "affiliate_name": "Y"}`, with "X" resolving to 42
(and "Y" to 7), the pair `("affiliate_name", "Y")` is an "other
key-value pair", yet it does not survive unchanged — `resolve_filters`
rewrites it away too. -/
theorem c5_counterexample :
    resolve_filters c5_orc c5_bundle =
      .ok [("offer_id", Value.int 42), ("affiliate_id", Value.int 7)] ∧
    alookup c5_bundle "affiliate_name" = some (Value.str "Y") ∧
    ∀ d, resolve_filters c5_orc c5_bundle = .ok d →
      ¬ alookup d "affiliate_name" = some (Value.str "Y") := by
  refine ⟨rfl, by decide, ?_⟩
  intro d h
  have h0 : resolve_filters c5_orc c5_bundle =
      .ok [("offer_id", Value.int 42), ("affiliate_id", Value.int 7)] := rfl
  rw [h0] at h
  cases h
  decide

/-- C5 (amended): for a bundle containing `offer_name ↦ n` whose other
keys are not themselves rewritten by resolution (no `affiliate_name`,
`country_name` or `country` key; `offer_id` excluded from the frame,
since a pre-existing `offer_id` entry is overwritten), when `n` resolves
to a non-zero identifier `i`, `resolve_filters` returns the bundle with
`offer_id ↦ i`, the `offer_name` key removed, and every other key-value
pair unchanged.  The input dictionary itself is untouched (the embedding
is pure; the Python code rewrites `filters.copy()`). -/
theorem c5_amended_offer_rewrite (orc : ResolverOracles) (filters : Bundle)
    (v : Value) (i : Int)
    (hnk : nodupKeys filters)
    (hv : alookup filters "offer_name" = some v)
    (hres : (orc.resOffer v).1 = some i) (hi : i ≠ 0)
    (hna : alookup filters "affiliate_name" = none)
    (hncn : alookup filters "country_name" = none)
    (hnc : alookup filters "country" = none) :
    ∃ d, resolve_filters orc filters = .ok d ∧
      alookup d "offer_id" = some (Value.int i) ∧
      alookup d "offer_name" = none ∧
      ∀ k, k ≠ "offer_name" → k ≠ "offer_id" → alookup d k = alookup filters k := by
  have hOffer : offerStep orc filters =
      (aerase (ainsert filters "offer_id" (Value.int i)) "offer_name", []) := by
    simp [offerStep, hv, hres, truthyOptInt, hi]
  have hframe : ∀ k, k ≠ "offer_name" → k ≠ "offer_id" →
      alookup (aerase (ainsert filters "offer_id" (Value.int i)) "offer_name") k =
        alookup filters k := by
    intro k h1 h2
    rw [alookup_aerase_of_ne _ _ _ h1, alookup_ainsert_of_ne _ _ _ _ h2]
  have hAff : affStep orc (aerase (ainsert filters "offer_id" (Value.int i)) "offer_name") =
      (aerase (ainsert filters "offer_id" (Value.int i)) "offer_name", []) := by
    have h := hframe "affiliate_name" (by decide) (by decide)
    simp [affStep, h, hna]
  have hCountry : countryStep orc
      (aerase (ainsert filters "offer_id" (Value.int i)) "offer_name") =
      (aerase (ainsert filters "offer_id" (Value.int i)) "offer_name", []) := by
    have h1 := hframe "country_name" (by decide) (by decide)
    have h2 := hframe "country" (by decide) (by decide)
    simp [countryStep, h1, h2, hncn, hnc]
  refine ⟨aerase (ainsert filters "offer_id" (Value.int i)) "offer_name", ?_, ?_, ?_, hframe⟩
  · rw [resolve_filters, hOffer]
    simp only [hAff, hCountry]
    simp
  · rw [alookup_aerase_of_ne _ _ _ (by decide), alookup_ainsert_self]
  · exact alookup_aerase_self _ _ (nodupKeys_ainsert _ _ _ hnk)

/-- Witness for C5 (amended): the spec's example bundle
`{"offer_name": "X", "source_id": 1}` with "X" resolving to 42. -/
theorem c5_amended_offer_rewrite_witness :
    ∃ d, resolve_filters c5_orc c5w_bundle = .ok d ∧
      alookup d "offer_id" = some (Value.int 42) ∧
      alookup d "offer_name" = none ∧
      ∀ k, k ≠ "offer_name" → k ≠ "offer_id" → alookup d k = alookup c5w_bundle k :=
  c5_amended_offer_rewrite c5_orc c5w_bundle (Value.str "X") 42
    (by show (c5w_bundle.map Prod.fst).Nodup; decide) rfl rfl (by decide) rfl rfl rfl

/-- Counterexample to C4 as stated: the plain `country` name field
"Atlantis" fails to resolve (oracle answers not-found with zero
suggestions), yet `resolve_filters` raises nothing at all — it returns
the bundle unchanged, so not every failing name field produces an
aggregated error. -/
theorem c4_counterexample :
    truthyOptStr (c4_orc.resCountry (Value.str "Atlantis")).1 = false ∧
    (c4_orc.resCountry (Value.str "Atlantis")).2 = [] ∧
    alookup c4_bundle "country" = some (Value.str "Atlantis") ∧
    resolve_filters c4_orc c4_bundle = .ok c4_bundle :=
  ⟨rfl, rfl, rfl, rfl⟩

/-- C4 (amended): `resolve_filters` attempts every name field before
raising and raises at most one aggregated error (a single `ValueError`,
modelled as one `.error`).  Whatever else the bundle holds, each failing
name field contributes its per-field message — carrying the failed name
and its top suggestions — to that one aggregated error: a failing
`offer_name`, a failing `affiliate_name`, a failing `country_name`, and
a plain `country` key (reached only when `country_name` is absent and
`country_code` is absent) that fails *with* suggestions; so no failure
short-circuits the others out of the message.  If every present name
field resolves, no error is raised.  Exception forced by the
counterexample: a plain `country` key that fails with an empty
suggestion list is skipped silently, so it alone never triggers the
error. -/
theorem c4_amended_aggregate_then_raise (orc : ResolverOracles) (filters : Bundle) :
    (∀ v, alookup filters "offer_name" = some v →
      truthyOptInt (orc.resOffer v).1 = false →
      ∃ e, resolve_filters orc filters = .error e ∧
        strHasSub (offer_err_msg v (orc.resOffer v).2) e) ∧
    (∀ v, alookup filters "affiliate_name" = some v →
      truthyOptInt (orc.resAff v).1 = false →
      ∃ e, resolve_filters orc filters = .error e ∧
        strHasSub (aff_err_msg v (orc.resAff v).2) e) ∧
    (∀ v, alookup filters "country_name" = some v →
      truthyOptStr (orc.resCountry v).1 = false →
      ∃ e, resolve_filters orc filters = .error e ∧
        strHasSub (country_err_msg v (orc.resCountry v).2) e) ∧
    (∀ v, alookup filters "country_name" = none →
      alookup filters "country" = some v →
      alookup filters "country_code" = none →
      truthyOptStr (orc.resCountry v).1 = false →
      (orc.resCountry v).2 ≠ [] →
      ∃ e, resolve_filters orc filters = .error e ∧
        strHasSub (country_plain_err_msg v (orc.resCountry v).2) e) ∧
    ((∀ v, alookup filters "offer_name" = some v → truthyOptInt (orc.resOffer v).1 = true) →
     (∀ v, alookup filters "affiliate_name" = some v → truthyOptInt (orc.resAff v).1 = true) →
     (∀ v, alookup filters "country_name" = some v → truthyOptStr (orc.resCountry v).1 = true) →
     (∀ v, alookup filters "country" = some v → truthyOptStr (orc.resCountry v).1 = true) →
     ∃ d, resolve_filters orc filters = .ok d) := by
  refine ⟨?_, ?_, ?_, ?_, ?_⟩
  · intro v hv hf
    apply resolve_filters_error_of_mem
    have hstep : (offerStep orc filters).2 = [offer_err_msg v (orc.resOffer v).2] := by
      simp [offerStep, hv, hf]
    rw [hstep]
    simp
  · intro v hv hf
    apply resolve_filters_error_of_mem
    have hl : alookup (offerStep orc filters).1 "affiliate_name" = some v := by
      rw [offerStep_fst_preserves orc filters "affiliate_name" (by decide) (by decide)]
      exact hv
    have hstep : (affStep orc (offerStep orc filters).1).2 =
        [aff_err_msg v (orc.resAff v).2] := by
      simp [affStep, hl, hf]
    rw [hstep]
    simp
  · intro v hv hf
    apply resolve_filters_error_of_mem
    have hl : alookup (affStep orc (offerStep orc filters).1).1 "country_name" = some v := by
      rw [affStep_fst_preserves orc _ "country_name" (by decide) (by decide),
        offerStep_fst_preserves orc filters "country_name" (by decide) (by decide)]
      exact hv
    have hstep : (countryStep orc (affStep orc (offerStep orc filters).1).1).2 =
        [country_err_msg v (orc.resCountry v).2] := by
      simp [countryStep, hl, hf]
    rw [hstep]
    simp
  · intro v hcn hc hcc hf hs
    apply resolve_filters_error_of_mem
    have hl1 : alookup (affStep orc (offerStep orc filters).1).1 "country_name" = none := by
      rw [affStep_fst_preserves orc _ "country_name" (by decide) (by decide),
        offerStep_fst_preserves orc filters "country_name" (by decide) (by decide)]
      exact hcn
    have hl2 : alookup (affStep orc (offerStep orc filters).1).1 "country" = some v := by
      rw [affStep_fst_preserves orc _ "country" (by decide) (by decide),
        offerStep_fst_preserves orc filters "country" (by decide) (by decide)]
      exact hc
    have hl3 : alookup (affStep orc (offerStep orc filters).1).1 "country_code" = none := by
      rw [affStep_fst_preserves orc _ "country_code" (by decide) (by decide),
        offerStep_fst_preserves orc filters "country_code" (by decide) (by decide)]
      exact hcc
    have hs' : (orc.resCountry v).2.isEmpty = false := by
      rw [← Bool.not_eq_true, List.isEmpty_iff]
      exact hs
    have hstep : (countryStep orc (affStep orc (offerStep orc filters).1).1).2 =
        [country_plain_err_msg v (orc.resCountry v).2] := by
      simp [countryStep, hl1, hl2, hl3, hf, hs']
    rw [hstep]
    simp
  · intro h1 h2 h3 h4
    obtain ⟨r₁, hr₁, hkeep₁⟩ : ∃ r₁, offerStep orc filters = (r₁, []) ∧
        ∀ k, k ≠ "offer_name" → k ≠ "offer_id" → alookup r₁ k = alookup filters k := by
      cases hvo : alookup filters "offer_name" with
      | none => exact ⟨filters, by simp [offerStep, hvo], fun k _ _ => rfl⟩
      | some v =>
        refine ⟨aerase (ainsert filters "offer_id"
            (Value.int ((orc.resOffer v).1.getD 0))) "offer_name", ?_, ?_⟩
        · simp [offerStep, hvo, h1 v hvo]
        · intro k hk1 hk2
          rw [alookup_aerase_of_ne _ _ _ hk1, alookup_ainsert_of_ne _ _ _ _ hk2]
    obtain ⟨r₂, hr₂, hkeep₂⟩ : ∃ r₂, affStep orc r₁ = (r₂, []) ∧
        ∀ k, k ≠ "affiliate_name" → k ≠ "affiliate_id" → alookup r₂ k = alookup r₁ k := by
      cases hva : alookup r₁ "affiliate_name" with
      | none => exact ⟨r₁, by simp [affStep, hva], fun k _ _ => rfl⟩
      | some v =>
        have hv' : alookup filters "affiliate_name" = some v := by
          rw [← hkeep₁ "affiliate_name" (by decide) (by decide)]; exact hva
        refine ⟨aerase (ainsert r₁ "affiliate_id"
            (Value.int ((orc.resAff v).1.getD 0))) "affiliate_name", ?_, ?_⟩
        · simp [affStep, hva, h2 v hv']
        · intro k hk1 hk2
          rw [alookup_aerase_of_ne _ _ _ hk1, alookup_ainsert_of_ne _ _ _ _ hk2]
    obtain ⟨r₃, hr₃⟩ : ∃ r₃, countryStep orc r₂ = (r₃, []) := by
      cases hvc : alookup r₂ "country_name" with
      | some v =>
        have hv' : alookup filters "country_name" = some v := by
          rw [← hkeep₁ "country_name" (by decide) (by decide),
            ← hkeep₂ "country_name" (by decide) (by decide)]
          exact hvc
        exact ⟨aerase (ainsert r₂ "country_code"
            (Value.str ((orc.resCountry v).1.getD ""))) "country_name",
          by simp [countryStep, hvc, h3 v hv']⟩
      | none =>
        cases hvp : alookup r₂ "country" with
        | none => exact ⟨r₂, by simp [countryStep, hvc, hvp]⟩
        | some v =>
          have hv' : alookup filters "country" = some v := by
            rw [← hkeep₁ "country" (by decide) (by decide),
              ← hkeep₂ "country" (by decide) (by decide)]
            exact hvp
          cases hcc : alookup r₂ "country_code" with
          | some w => exact ⟨r₂, by simp [countryStep, hvc, hvp, hcc]⟩
          | none =>
            exact ⟨aerase (ainsert r₂ "country_code"
                (Value.str ((orc.resCountry v).1.getD ""))) "country",
              by simp [countryStep, hvc, hvp, hcc, h4 v hv']⟩
    refine ⟨r₃, ?_⟩
    rw [resolve_filters, hr₁]
    simp only [hr₂, hr₃]
    rfl

/-- Witness for C4 (amended): the all-failing oracle on a bundle with
all three reporting name fields exercises the offer, affiliate and
country-name conjuncts; a plain-country bundle with a suggestion-bearing
failure exercises the fourth; and the all-resolving oracle on the same
full bundle exercises the no-raise conjunct non-vacuously. -/
theorem c4_amended_aggregate_then_raise_witness :
    (∃ e, resolve_filters c4w_orc c4w_bundle = .error e ∧
      strHasSub (offer_err_msg (Value.str "Papoalado")
        (c4w_orc.resOffer (Value.str "Papoalado")).2) e) ∧
    (∃ e, resolve_filters c4w_orc c4w_bundle = .error e ∧
      strHasSub (aff_err_msg (Value.str "iMonetize")
        (c4w_orc.resAff (Value.str "iMonetize")).2) e) ∧
    (∃ e, resolve_filters c4w_orc c4w_bundle = .error e ∧
      strHasSub (country_err_msg (Value.str "Brasil")
        (c4w_orc.resCountry (Value.str "Brasil")).2) e) ∧
    (∃ e, resolve_filters c4w_orc c4w_country_bundle = .error e ∧
      strHasSub (country_plain_err_msg (Value.str "Brasil")
        (c4w_orc.resCountry (Value.str "Brasil")).2) e) ∧
    (∃ d, resolve_filters c4w_ok_orc c4w_bundle = .ok d) :=
  ⟨(c4_amended_aggregate_then_raise c4w_orc c4w_bundle).1
      (Value.str "Papoalado") rfl rfl,
   (c4_amended_aggregate_then_raise c4w_orc c4w_bundle).2.1
      (Value.str "iMonetize") rfl rfl,
   (c4_amended_aggregate_then_raise c4w_orc c4w_bundle).2.2.1
      (Value.str "Brasil") rfl rfl,
   (c4_amended_aggregate_then_raise c4w_orc c4w_country_bundle).2.2.2.1
      (Value.str "Brasil") rfl rfl rfl rfl (by decide),
   (c4_amended_aggregate_then_raise c4w_ok_orc c4w_bundle).2.2.2.2
      (fun _ _ => rfl) (fun _ _ => rfl) (fun _ _ => rfl) (fun _ _ => rfl)⟩

/- ## Helper lemmas: pagination loops -/

theorem get_affiliates_loop_abort (fetch : Nat → Except String AffPage)
    (limit : Option Nat) (acc : List Aff) (page : Nat) (e : String)
    (h : fetch page = .error e) :
    get_affiliates_loop fetch limit acc page = .error e := by
  unfold get_affiliates_loop
  rw [h]

theorem get_offers_loop_abort (fetch : Nat → Except String OfferPage)
    (limit : Option Nat) (st : Option String) (acc : List FetchedOffer)
    (page : Nat) (e : String) (h : fetch page = .error e) :
    get_offers_loop fetch limit st acc page = .error e := by
  unfold get_offers_loop
  rw [h]

theorem get_affiliates_loop_full_step (fetch : Nat → Except String AffPage)
    (acc : List Aff) (page : Nat) (pg : AffPage)
    (h : fetch page = .ok pg) (hlen : pg.affiliates.length = 50)
    (htc : pg.total_count = 0) (hpage : page + 1 ≤ 50) :
    get_affiliates_loop fetch none acc page =
      (match get_affiliates_loop fetch none (extendAffs none acc pg.affiliates) (page + 1) with
       | .error e => .error e
       | .ok (res, ps) => .ok (res, page :: ps)) := by
  have hne : pg.affiliates.isEmpty = false := by
    cases haff : pg.affiliates with
    | nil => rw [haff] at hlen; simp at hlen
    | cons a l => rfl
  have hgt : ¬ (page + 1 > 50) := by omega
  generalize hR : get_affiliates_loop fetch none (extendAffs none acc pg.affiliates) (page + 1) = R
  unfold get_affiliates_loop
  rw [h]
  simp [hne, limitReached, truthyLimit, htc, hlen, hgt, hR]

theorem get_offers_loop_full_step (fetch : Nat → Except String OfferPage)
    (st : Option String) (acc : List FetchedOffer) (page : Nat) (pg : OfferPage)
    (h : fetch page = .ok pg) (hlen : pg.offers.length = 50)
    (htc : pg.total_count = 0) (hpage : page + 1 ≤ 50) :
    get_offers_loop fetch none st acc page =
      (match get_offers_loop fetch none st (extendOffers none st acc pg.offers) (page + 1) with
       | .error e => .error e
       | .ok (res, ps) => .ok (res, page :: ps)) := by
  have hne : pg.offers.isEmpty = false := by
    cases hoff : pg.offers with
    | nil => rw [hoff] at hlen; simp at hlen
    | cons a l => rfl
  have hgt : ¬ (page + 1 > 50) := by omega
  generalize hR : get_offers_loop fetch none st (extendOffers none st acc pg.offers) (page + 1) = R
  unfold get_offers_loop
  rw [h]
  simp [hne, limitReached, truthyLimit, htc, hlen, hgt, hR]

theorem get_affiliates_loop_stop (fetch : Nat → Except String AffPage)
    (acc : List Aff) (pg : AffPage)
    (h : fetch 50 = .ok pg) (hlen : pg.affiliates.length = 50)
    (htc : pg.total_count = 0) :
    get_affiliates_loop fetch none acc 50 =
      .ok (extendAffs none acc pg.affiliates, [50]) := by
  have hne : pg.affiliates.isEmpty = false := by
    cases haff : pg.affiliates with
    | nil => rw [haff] at hlen; simp at hlen
    | cons a l => rfl
  unfold get_affiliates_loop
  rw [h]
  simp [hne, limitReached, truthyLimit, htc, hlen]

theorem get_offers_loop_stop (fetch : Nat → Except String OfferPage)
    (st : Option String) (acc : List FetchedOffer) (pg : OfferPage)
    (h : fetch 50 = .ok pg) (hlen : pg.offers.length = 50)
    (htc : pg.total_count = 0) :
    get_offers_loop fetch none st acc 50 =
      .ok (extendOffers none st acc pg.offers, [50]) := by
  have hne : pg.offers.isEmpty = false := by
    cases hoff : pg.offers with
    | nil => rw [hoff] at hlen; simp at hlen
    | cons a l => rfl
  unfold get_offers_loop
  rw [h]
  simp [hne, limitReached, truthyLimit, htc, hlen]

theorem affs_pages_of_always_full (fetch : Nat → Except String AffPage)
    (hf : ∀ p, ∃ pg, fetch p = .ok pg ∧ pg.affiliates.length = 50 ∧ pg.total_count = 0) :
    ∀ k page acc, page + k = 50 →
      ∃ res, get_affiliates_loop fetch none acc page = .ok (res, List.range' page (k + 1)) := by
  intro k
  induction k with
  | zero =>
    intro page acc hp
    have hp50 : page = 50 := by omega
    subst hp50
    obtain ⟨pg, h, hlen, htc⟩ := hf 50
    exact ⟨extendAffs none acc pg.affiliates,
      by rw [get_affiliates_loop_stop fetch acc pg h hlen htc]; rfl⟩
  | succ n ih =>
    intro page acc hp
    obtain ⟨pg, h, hlen, htc⟩ := hf page
    obtain ⟨res, hres⟩ := ih (page + 1) (extendAffs none acc pg.affiliates) (by omega)
    refine ⟨res, ?_⟩
    rw [get_affiliates_loop_full_step fetch acc page pg h hlen htc (by omega), hres]
    rfl

theorem offers_pages_of_always_full (fetch : Nat → Except String OfferPage)
    (st : Option String)
    (hf : ∀ p, ∃ pg, fetch p = .ok pg ∧ pg.offers.length = 50 ∧ pg.total_count = 0) :
    ∀ k page acc, page + k = 50 →
      ∃ res, get_offers_loop fetch none st acc page = .ok (res, List.range' page (k + 1)) := by
  intro k
  induction k with
  | zero =>
    intro page acc hp
    have hp50 : page = 50 := by omega
    subst hp50
    obtain ⟨pg, h, hlen, htc⟩ := hf 50
    exact ⟨extendOffers none st acc pg.offers,
      by rw [get_offers_loop_stop fetch st acc pg h hlen htc]; rfl⟩
  | succ n ih =>
    intro page acc hp
    obtain ⟨pg, h, hlen, htc⟩ := hf page
    obtain ⟨res, hres⟩ := ih (page + 1) (extendOffers none st acc pg.offers) (by omega)
    refine ⟨res, ?_⟩
    rw [get_offers_loop_full_step fetch st acc page pg h hlen htc (by omega), hres]
    rfl

/-- C3: against an upstream that always returns a full 50-record page
with no usable total count (so no normal termination condition ever
triggers) and with no caller-supplied limit, both paginated fetches
request pages strictly sequentially starting at page 1 and stop after
exactly 50 page requests: the requested-page trace is precisely
`[1, 2, ..., 50]` (`List.range' 1 50`), whose length is 50. -/
theorem c3_fifty_page_safety_ceiling
    (fetchA : Nat → Except String AffPage) (fetchO : Nat → Except String OfferPage)
    (hA : ∀ p, ∃ pg, fetchA p = .ok pg ∧ pg.affiliates.length = 50 ∧ pg.total_count = 0)
    (hO : ∀ p, ∃ pg, fetchO p = .ok pg ∧ pg.offers.length = 50 ∧ pg.total_count = 0) :
    (∃ res, get_affiliates_loop fetchA none [] 1 = .ok (res, List.range' 1 50)) ∧
    (∃ res, get_offers_loop fetchO none none [] 1 = .ok (res, List.range' 1 50)) ∧
    (List.range' 1 50).length = 50 := by
  refine ⟨?_, ?_, by simp⟩
  · exact affs_pages_of_always_full fetchA hA 49 1 [] (by omega)
  · exact offers_pages_of_always_full fetchO none hO 49 1 [] (by omega)

/-- Witness for C3: the concrete always-full upstreams. -/
theorem c3_fifty_page_safety_ceiling_witness :
    (∃ res, get_affiliates_loop c3_aff_fetch none [] 1 = .ok (res, List.range' 1 50)) ∧
    (∃ res, get_offers_loop c3_offer_fetch none none [] 1 = .ok (res, List.range' 1 50)) ∧
    (List.range' 1 50).length = 50 :=
  c3_fifty_page_safety_ceiling c3_aff_fetch c3_offer_fetch
    (fun _ => ⟨{ affiliates := List.replicate 50 c1_raw_aff, total_count := 0 },
      rfl, by simp, rfl⟩)
    (fun _ => ⟨{ offers := List.replicate 50 c1_raw_offer, total_count := 0 },
      rfl, by simp, rfl⟩)

/-- Counterexample to C1 as stated: with an upstream whose page 1 is a
full page of valid records and whose page 2 raises a network error, the
paginated loop does abort with the error and discards the partial page-1
records — but `get_affiliates`/`get_offers` catch the exception
(`except Exception: return []`) and report the failed fetch to the
caller as the empty result list, so the failure does *not* propagate and
the caller cannot distinguish it from an empty collection. -/
theorem c1_counterexample :
    get_affiliates_loop c1_aff_fetch none [] 1 = .error "API Error: connection reset" ∧
    get_affiliates c1_aff_fetch none = [] ∧
    get_offers_loop c1_offer_fetch none none [] 1 = .error "API Error: connection reset" ∧
    get_offers c1_offer_fetch none none = [] := by
  have ha : get_affiliates_loop c1_aff_fetch none [] 1 =
      .error "API Error: connection reset" := by
    rw [get_affiliates_loop_full_step c1_aff_fetch [] 1
      { affiliates := List.replicate 50 c1_raw_aff, total_count := 0 }
      rfl (by simp) rfl (by omega)]
    rw [get_affiliates_loop_abort c1_aff_fetch none _ 2 _ rfl]
  have ho : get_offers_loop c1_offer_fetch none none [] 1 =
      .error "API Error: connection reset" := by
    rw [get_offers_loop_full_step c1_offer_fetch none [] 1
      { offers := List.replicate 50 c1_raw_offer, total_count := 0 }
      rfl (by simp) rfl (by omega)]
    rw [get_offers_loop_abort c1_offer_fetch none none _ 2 _ rfl]
  refine ⟨ha, ?_, ho, ?_⟩
  · unfold get_affiliates
    rw [ha]
  · unfold get_offers
    rw [ho]

/-- C1 (amended): a network or deserialization error on any page does
abort the whole paginated loop immediately, and any partially
accumulated records are discarded — but the error is then caught by the
`except Exception: return []` handler, so `get_affiliates`/`get_offers`
report the failed fetch to the caller as an empty result list instead of
propagating a fetch failure; an empty collection and a failed fetch are
indistinguishable for the caller. -/
theorem c1_amended_failure_swallowed_as_empty
    (fetchA : Nat → Except String AffPage) (fetchO : Nat → Except String OfferPage)
    (limit : Option Nat) (st : Option String) :
    (∀ acc page e, fetchA page = .error e →
      get_affiliates_loop fetchA limit acc page = .error e) ∧
    ((∃ e, get_affiliates_loop fetchA limit [] 1 = .error e) →
      get_affiliates fetchA limit = []) ∧
    (∀ acc page e, fetchO page = .error e →
      get_offers_loop fetchO limit st acc page = .error e) ∧
    ((∃ e, get_offers_loop fetchO limit st [] 1 = .error e) →
      get_offers fetchO limit st = []) := by
  refine ⟨fun acc page e h => get_affiliates_loop_abort fetchA limit acc page e h, ?_,
    fun acc page e h => get_offers_loop_abort fetchO limit st acc page e h, ?_⟩
  · rintro ⟨e, he⟩
    unfold get_affiliates
    rw [he]
  · rintro ⟨e, he⟩
    unfold get_offers
    rw [he]

/-- Witness for C1 (amended): an upstream that always raises. -/
theorem c1_amended_failure_swallowed_as_empty_witness :
    get_affiliates_loop (fun _ => .error "boom") none [] 7 = .error "boom" ∧
    get_affiliates (fun _ => .error "boom") none = [] ∧
    get_offers_loop (fun _ => .error "boom") none none [] 7 = .error "boom" ∧
    get_offers (fun _ => .error "boom") none none = [] := by
  obtain ⟨h1, h2, h3, h4⟩ := c1_amended_failure_swallowed_as_empty
    (fun _ => .error "boom") (fun _ => .error "boom") none none
  exact ⟨h1 [] 7 "boom" rfl, h2 ⟨"boom", h1 [] 1 "boom" rfl⟩,
    h3 [] 7 "boom" rfl, h4 ⟨"boom", h3 [] 1 "boom" rfl⟩⟩

/- ## Helper lemmas: offer resolution cache -/

theorem resolveOfferSuggPhase_some_mem_cache (ratio : String → String → ℚ)
    (offers : List OfferDict) (rs : Bool) (st : OfferResolverState) (sn : String)
    (i : Int) (sg : List OfferSug) (st' : OfferResolverState)
    (h : resolveOfferSuggPhase ratio offers rs st sn = (some i, sg, st')) :
    alookup st'.cache sn = some (some i) := by
  rw [resolveOfferSuggPhase] at h
  split at h
  · simp only [Prod.mk.injEq] at h
    obtain ⟨h1, _, h3⟩ := h
    subst h3
    rw [alookup_ainsert_self, h1]
  · split at h <;> simp only [Prod.mk.injEq] at h <;> exact absurd h.1 (by simp)

theorem resolve_offer_cache_hit (ratio : String → String → ℚ)
    (offers : List OfferDict) (rs : Bool) (st : OfferResolverState) (v : String)
    (c : Option Int) (h : alookup st.cache (pynorm v) = some c) :
    resolve_offer ratio offers rs st (.inr v) = (c, [], st) := by
  simp only [resolve_offer, h]

theorem resolve_offer_some_mem_cache (ratio : String → String → ℚ)
    (offers : List OfferDict) (rs : Bool) (st : OfferResolverState) (v : String)
    (i : Int) (sg : List OfferSug) (st' : OfferResolverState)
    (h : resolve_offer ratio offers rs st (.inr v) = (some i, sg, st')) :
    alookup st'.cache (pynorm v) = some (some i) := by
  cases hc : alookup st.cache (pynorm v) with
  | some cached =>
    rw [resolve_offer_cache_hit ratio offers rs st v cached hc] at h
    simp only [Prod.mk.injEq] at h
    obtain ⟨h1, _, h3⟩ := h
    subst h3
    rw [hc, h1]
  | none =>
    cases ht : get_offer_by_name v with
    | some t =>
      simp only [resolve_offer, hc, ht] at h
      simp only [Prod.mk.injEq] at h
      obtain ⟨h1, _, h3⟩ := h
      subst h3
      rw [alookup_ainsert_self, h1]
    | none =>
      rcases hsv : scanOffers ratio (pynorm v) (none, 0) offers with ⟨found, bm, bs⟩
      cases found with
      | some oid =>
        simp only [resolve_offer, hc, ht, hsv] at h
        simp only [Prod.mk.injEq] at h
        obtain ⟨h1, _, h3⟩ := h
        subst h3
        rw [alookup_ainsert_self, h1]
      | none =>
        cases bm with
        | some b =>
          by_cases hbs : (85 : ℚ)/100 ≤ bs
          · simp only [resolve_offer, hc, ht, hsv, if_pos hbs] at h
            simp only [Prod.mk.injEq] at h
            obtain ⟨h1, _, h3⟩ := h
            subst h3
            rw [alookup_ainsert_self, h1]
          · simp only [resolve_offer, hc, ht, hsv, if_neg hbs] at h
            exact resolveOfferSuggPhase_some_mem_cache ratio offers rs _ _ i sg st' h
        | none =>
          simp only [resolve_offer, hc, ht, hsv] at h
          exact resolveOfferSuggPhase_some_mem_cache ratio offers rs _ _ i sg st' h

/-- Counterexample to C2 as stated: for a query that does not resolve
(nothing is cached on failure), every repetition of the
identically-normalized term performs a fresh collection fetch — after
two calls with the same term the fetch count is 2, not at most 1. -/
theorem c2_counterexample :
    ((resolve_offer (fun _ _ => (0 : ℚ)) [] false
        (resolve_offer (fun _ _ => (0 : ℚ)) [] false
          { cache := [], fetchCount := 0 } (.inr "zzz")).2.2
        (.inr "zzz")).2.2).fetchCount = 2 := by decide

/-- C2 (amended): within one resolver lifetime, if a resolve call on a
search term returns an identifier, that identifier is recorded in the
cache under the normalized (trimmed, case-folded) term, and any
subsequent call whose term normalizes to the same string is answered
from the cache: it returns the same identifier and leaves the resolver
state — cache and collection-fetch count — completely unchanged, so
successful lookups cost at most one fetch no matter how often they are
repeated.  (For terms that fail to resolve nothing is cached, and each
repetition fetches again — the unconditional "at most 1" of the original
claim fails, see the counterexample.) -/
theorem c2_amended_cached_second_call (ratio : String → String → ℚ)
    (offers : List OfferDict) (rs₁ rs₂ : Bool) (st : OfferResolverState)
    (v₁ v₂ : String) (i : Int) (sg : List OfferSug) (st₁ : OfferResolverState)
    (hnorm : pynorm v₁ = pynorm v₂)
    (h1 : resolve_offer ratio offers rs₁ st (.inr v₁) = (some i, sg, st₁)) :
    resolve_offer ratio offers rs₂ st₁ (.inr v₂) = (some i, [], st₁) := by
  have hc := resolve_offer_some_mem_cache ratio offers rs₁ st v₁ i sg st₁ h1
  rw [hnorm] at hc
  exact resolve_offer_cache_hit ratio offers rs₂ st₁ v₂ (some i) hc

/-- Witness for C2 (amended): "Holiday Special" resolves (via the test
table) on the first call; the second call — written with different case
and surrounding whitespace — is served from the cache with the state
unchanged. -/
theorem c2_amended_cached_second_call_witness :
    pynorm "Holiday SPECIAL" = pynorm "  holiday special " ∧
    resolve_offer (fun _ _ => (0 : ℚ)) [] true { cache := [], fetchCount := 0 }
      (.inr "Holiday SPECIAL") =
      (some 1002, [], { cache := [("holiday special", some 1002)], fetchCount := 0 }) ∧
    resolve_offer (fun _ _ => (0 : ℚ)) [] false
      { cache := [("holiday special", some 1002)], fetchCount := 0 }
      (.inr "  holiday special ") =
      (some 1002, [], { cache := [("holiday special", some 1002)], fetchCount := 0 }) :=
  ⟨by decide, by decide,
   c2_amended_cached_second_call (fun _ _ => (0 : ℚ)) [] true false
     { cache := [], fetchCount := 0 } "Holiday SPECIAL" "  holiday special " 1002 []
     { cache := [("holiday special", some 1002)], fetchCount := 0 }
     (by decide) (by decide)⟩

/- ## Helper lemmas: rounding and suggestion bounds -/

theorem round1_mono {a b : ℚ} (h : a ≤ b) : round1 a ≤ round1 b := by
  unfold round1
  have h1 : round (10 * a) ≤ round (10 * b) := by
    rw [round_eq, round_eq]
    exact Int.floor_le_floor (by linarith)
  have h2 : ((round (10 * a) : ℤ) : ℚ) ≤ ((round (10 * b) : ℤ) : ℚ) :=
    Int.cast_le.mpr h1
  linarith

theorem round1_zero : round1 0 = 0 := by
  simp [round1]

theorem round1_hundred : round1 100 = 100 := by
  have h : (10 : ℚ) * 100 = ((1000 : ℤ) : ℚ) := by norm_num
  rw [round1, h, round_intCast]
  norm_num

theorem round1_pct_bounds {q : ℚ} (h0 : 0 ≤ q) (h1 : q ≤ 1) :
    0 ≤ round1 (100 * q) ∧ round1 (100 * q) ≤ 100 := by
  have ha : round1 0 ≤ round1 (100 * q) := round1_mono (by linarith)
  have hb : round1 (100 * q) ≤ round1 100 := round1_mono (by linarith)
  rw [round1_zero] at ha
  rw [round1_hundred] at hb
  exact ⟨ha, hb⟩

theorem firstSimilar_bounds (ratio : String → String → ℚ)
    (hr : ∀ a b, 0 ≤ ratio a b ∧ ratio a b ≤ 1) (sl : String) (m : ℚ) :
    ∀ (names : List String) (s : ℚ), firstSimilar ratio sl m names = some s →
      0 ≤ s ∧ s ≤ 1 := by
  intro names
  induction names with
  | nil => intro s h; simp [firstSimilar] at h
  | cons n rest ih =>
    intro s h
    by_cases hn : n = ""
    · rw [firstSimilar, if_pos hn] at h
      exact ih s h
    · rw [firstSimilar, if_neg hn] at h
      simp only [] at h
      split at h
      · injection h with h'
        subst h'
        exact hr _ _
      · exact ih s h

theorem countryFold_bounds (ratio : String → String → ℚ)
    (hr : ∀ a b, 0 ≤ ratio a b ∧ ratio a b ≤ 1) (t : String) :
    ∀ (names : List String) (m : ℚ), 0 ≤ m → m ≤ 1 →
      0 ≤ names.foldl
        (fun m n => if n = "" then m
          else max m (calculate_similarity ratio t (pyLower n))) m ∧
      names.foldl
        (fun m n => if n = "" then m
          else max m (calculate_similarity ratio t (pyLower n))) m ≤ 1 := by
  intro names
  induction names with
  | nil => intro m h0 h1; simpa using ⟨h0, h1⟩
  | cons n rest ih =>
    intro m h0 h1
    simp only [List.foldl_cons]
    by_cases hn : n = ""
    · simp only [if_pos hn]
      exact ih m h0 h1
    · simp only [if_neg hn]
      exact ih _ (le_trans h0 (le_max_left _ _)) (max_le h1 (hr _ _).2)

theorem countryMaxSim_bounds (ratio : String → String → ℚ)
    (hr : ∀ a b, 0 ≤ ratio a b ∧ ratio a b ≤ 1) (t : String) (names : List String) :
    0 ≤ countryMaxSim ratio t names ∧ countryMaxSim ratio t names ≤ 1 :=
  countryFold_bounds ratio hr t names 0 le_rfl (by norm_num)

theorem pairwise_take5_insertionSort {α : Type} (key : α → ℚ) (l : List α) :
    List.Pairwise (fun a b => key b ≤ key a)
      ((List.insertionSort (fun a b => key b ≤ key a) l).take 5) := by
  haveI h1 : IsTotal α (fun a b => key b ≤ key a) := ⟨fun a b => le_total (key b) (key a)⟩
  haveI h2 : IsTrans α (fun a b => key b ≤ key a) :=
    ⟨fun _ _ _ hab hbc => le_trans hbc hab⟩
  exact List.Pairwise.sublist (List.take_sublist _ _) (List.sorted_insertionSort _ l)

theorem mem_of_mem_take5_insertionSort {α : Type} (r : α → α → Prop) [DecidableRel r]
    (l : List α) (x : α) (h : x ∈ (List.insertionSort r l).take 5) : x ∈ l :=
  (List.perm_insertionSort r l).mem_iff.mp (List.mem_of_mem_take h)

/-- C8: every suggestion list produced on failed resolution — the offer
and affiliate lists built from `_find_similar_entities` and the list
`resolve_country` builds by hand — contains at most 5 entries, is sorted
non-increasing by its presented similarity score, and every presented
score lies in `[0, 100]` (given that `SequenceMatcher.ratio` yields
values in `[0, 1]`). -/
theorem c8_suggestion_lists_sorted_capped_bounded (ratio : String → String → ℚ)
    (hr : ∀ a b, 0 ≤ ratio a b ∧ ratio a b ≤ 1) (search : String)
    (offers : List OfferDict) (affiliates : List AffDict)
    (countries : List CountryItem) :
    sortedCappedBounded OfferSug.similarity (offer_suggestions_list ratio search offers) ∧
    sortedCappedBounded AffSug.similarity (aff_suggestions_list ratio search affiliates) ∧
    sortedCappedBounded CountrySug.similarity
      (country_suggestions_list ratio search countries) := by
  refine ⟨⟨?_, ?_, ?_⟩, ⟨?_, ?_, ?_⟩, ⟨?_, ?_, ?_⟩⟩
  · simp only [offer_suggestions_list, find_similar_entities, List.length_map]
    exact List.length_take_le _ _
  · simp only [offer_suggestions_list, find_similar_entities]
    rw [List.pairwise_map]
    refine List.Pairwise.imp ?_ (pairwise_take5_insertionSort (fun e => e.2) _)
    intro a b hab
    exact round1_mono (by nlinarith)
  · intro s hs
    simp only [offer_suggestions_list, find_similar_entities, List.mem_map] at hs
    obtain ⟨e, he, rfl⟩ := hs
    have he' := mem_of_mem_take5_insertionSort _ _ e he
    rw [List.mem_filterMap] at he'
    obtain ⟨ent, _, hfs⟩ := he'
    rw [Option.map_eq_some'] at hfs
    obtain ⟨q, hq, hfe⟩ := hfs
    obtain ⟨hq0, hq1⟩ := firstSimilar_bounds ratio hr _ _ _ q hq
    have hsim : (offerSugOf e).similarity = round1 (100 * q) := by
      rw [← hfe]
      rfl
    rw [hsim]
    exact round1_pct_bounds hq0 hq1
  · simp only [aff_suggestions_list, find_similar_entities, List.length_map]
    exact List.length_take_le _ _
  · simp only [aff_suggestions_list, find_similar_entities]
    rw [List.pairwise_map]
    refine List.Pairwise.imp ?_ (pairwise_take5_insertionSort (fun e => e.2) _)
    intro a b hab
    exact round1_mono (by nlinarith)
  · intro s hs
    simp only [aff_suggestions_list, find_similar_entities, List.mem_map] at hs
    obtain ⟨e, he, rfl⟩ := hs
    have he' := mem_of_mem_take5_insertionSort _ _ e he
    rw [List.mem_filterMap] at he'
    obtain ⟨ent, _, hfs⟩ := he'
    rw [Option.map_eq_some'] at hfs
    obtain ⟨q, hq, hfe⟩ := hfs
    obtain ⟨hq0, hq1⟩ := firstSimilar_bounds ratio hr _ _ _ q hq
    have hsim : (affSugOf e).similarity = round1 (100 * q) := by
      rw [← hfe]
      rfl
    rw [hsim]
    exact round1_pct_bounds hq0 hq1
  · simp only [country_suggestions_list]
    exact List.length_take_le _ _
  · simp only [country_suggestions_list]
    exact pairwise_take5_insertionSort CountrySug.similarity _
  · intro s hs
    simp only [country_suggestions_list] at hs
    have hs' := mem_of_mem_take5_insertionSort _ _ s hs
    rw [List.mem_filterMap] at hs'
    obtain ⟨item, _, hf⟩ := hs'
    rcases hcode : item.code with _ | code
    · rw [hcode] at hf
      simp at hf
    · rw [hcode] at hf
      simp only [] at hf
      split at hf
      · simp at hf
      · split at hf
        · injection hf with hf'
          subst hf'
          obtain ⟨h0, h1⟩ := countryMaxSim_bounds ratio hr search
            (item.name :: item.possible_names)
          exact round1_pct_bounds h0 h1
        · simp at hf

/-- Witness for C8: a constant ratio of 1/2 (within `[0,1]`) on small
concrete catalogs. -/
theorem c8_suggestion_lists_sorted_capped_bounded_witness :
    sortedCappedBounded OfferSug.similarity
      (offer_suggestions_list (fun _ _ => 1/2) "summer"
        [{ offer_id := some 7, offer_name := "Summer", advertiser_name := ""
           advertiser := "", offer := "", raw_name := "", raw_offer_name := ""
           raw_advertiser_name := "", raw_advertiser := "", raw_offer := "" }]) ∧
    sortedCappedBounded AffSug.similarity
      (aff_suggestions_list (fun _ _ => 1/2) "summer"
        [{ affiliate_id := some 3, affiliate_name := "Summer Aff", affiliate := ""
           raw_affiliate_name := "", raw_affiliate := "" }]) ∧
    sortedCappedBounded CountrySug.similarity
      (country_suggestions_list (fun _ _ => 1/2) "summer"
        [{ code := some "DE", name := "Germany", possible_names := ["Germany"] }]) :=
  c8_suggestion_lists_sorted_capped_bounded (fun _ _ => 1/2)
    (fun _ _ => ⟨by norm_num, by norm_num⟩) "summer"
    [{ offer_id := some 7, offer_name := "Summer", advertiser_name := ""
       advertiser := "", offer := "", raw_name := "", raw_offer_name := ""
       raw_advertiser_name := "", raw_advertiser := "", raw_offer := "" }]
    [{ affiliate_id := some 3, affiliate_name := "Summer Aff", affiliate := ""
       raw_affiliate_name := "", raw_affiliate := "" }]
    [{ code := some "DE", name := "Germany", possible_names := ["Germany"] }]

/- ## Helper lemmas: lowering, brackets, whitespace (claim C7) -/

theorem char_toNat_ofNat_lt (n : Nat) (h : n < 55296) : (Char.ofNat n).toNat = n := by
  rw [Char.ofNat]
  rw [dif_pos (Or.inl h)]
  simp [Char.ofNatAux, Char.toNat, UInt32.ofNat']
  rfl

theorem charEq_iff_toNat {c d : Char} : c = d ↔ c.toNat = d.toNat := by
  constructor
  · intro h; rw [h]
  · intro h
    apply Char.ext
    have h' : c.val.toNat = d.val.toNat := h
    exact UInt32.toNat.inj h'

theorem toLower_toNat (c : Char) :
    (65 ≤ c.toNat ∧ c.toNat ≤ 90 ∧ (Char.toLower c).toNat = c.toNat + 32) ∨
    (¬(65 ≤ c.toNat ∧ c.toNat ≤ 90) ∧ Char.toLower c = c) := by
  by_cases h : 65 ≤ c.toNat ∧ c.toNat ≤ 90
  · left
    refine ⟨h.1, h.2, ?_⟩
    show (if c.toNat ≥ 65 ∧ c.toNat ≤ 90 then Char.ofNat (c.toNat + 32) else c).toNat = _
    rw [if_pos ⟨h.1, h.2⟩]
    exact char_toNat_ofNat_lt _ (by omega)
  · right
    refine ⟨h, ?_⟩
    show (if c.toNat ≥ 65 ∧ c.toNat ≤ 90 then Char.ofNat (c.toNat + 32) else c) = c
    rw [if_neg h]

theorem isWhitespace_iff_toNat (c : Char) :
    c.isWhitespace = true ↔ (c.toNat = 32 ∨ c.toNat = 9 ∨ c.toNat = 13 ∨ c.toNat = 10) := by
  show (c = ' ' || c = '\t' || c = '\r' || c = '\n') = true ↔ _
  simp only [Bool.or_eq_true, decide_eq_true_eq]
  constructor
  · rintro (((rfl | rfl) | rfl) | rfl) <;> simp [Char.toNat]
  · rintro (h | h | h | h)
    · exact Or.inl (Or.inl (Or.inl (charEq_iff_toNat.mpr h)))
    · exact Or.inl (Or.inl (Or.inr (charEq_iff_toNat.mpr h)))
    · exact Or.inl (Or.inr (charEq_iff_toNat.mpr h))
    · exact Or.inr (charEq_iff_toNat.mpr h)

theorem toLower_isWhitespace (c : Char) :
    (Char.toLower c).isWhitespace = c.isWhitespace := by
  rcases toLower_toNat c with ⟨h1, h2, h3⟩ | ⟨_, h⟩
  · have hws1 : (Char.toLower c).isWhitespace = false := by
      rw [← Bool.not_eq_true, isWhitespace_iff_toNat, h3]
      omega
    have hws2 : c.isWhitespace = false := by
      rw [← Bool.not_eq_true, isWhitespace_iff_toNat]
      omega
    rw [hws1, hws2]
  · rw [h]

theorem replaceBr_toLower (c : Char) :
    replaceBr (Char.toLower c) = Char.toLower (replaceBr c) := by
  by_cases hb : c = '[' ∨ c = ']'
  · rcases hb with rfl | rfl <;> decide
  · push_neg at hb
    have hr : replaceBr c = c := by
      unfold replaceBr
      rw [if_neg hb.1, if_neg hb.2]
    rw [hr]
    rcases toLower_toNat c with ⟨h1, h2, h3⟩ | ⟨_, h⟩
    · have n1 : ¬ Char.toLower c = '[' := by
        intro hh
        have h91 : ('[' : Char).toNat = 91 := rfl
        have := charEq_iff_toNat.mp hh
        rw [h3, h91] at this
        omega
      have n2 : ¬ Char.toLower c = ']' := by
        intro hh
        have h93 : (']' : Char).toNat = 93 := rfl
        have := charEq_iff_toNat.mp hh
        rw [h3, h93] at this
        omega
      unfold replaceBr
      rw [if_neg n1, if_neg n2]
    · rw [h]
      unfold replaceBr
      rw [if_neg hb.1, if_neg hb.2]

theorem replaceBr_isWhitespace (c : Char) :
    (replaceBr c).isWhitespace = c.isWhitespace := by
  by_cases hb : c = '[' ∨ c = ']'
  · rcases hb with rfl | rfl <;> decide
  · push_neg at hb
    unfold replaceBr
    rw [if_neg hb.1, if_neg hb.2]

theorem isEmpty_map_eq {α β : Type} (f : α → β) (l : List α) :
    (l.map f).isEmpty = l.isEmpty := by
  cases l <;> rfl

theorem pywordsAux_map_toLower : ∀ (l acc : List Char),
    pywordsAux (acc.map Char.toLower) (l.map Char.toLower) =
      (pywordsAux acc l).map (List.map Char.toLower)
  | [], acc => by
    simp only [List.map_nil, pywordsAux, isEmpty_map_eq]
    by_cases h : acc.isEmpty
    · rw [if_pos h, if_pos h]
      rfl
    · rw [if_neg h, if_neg h]
      simp
  | c :: cs, acc => by
    simp only [List.map_cons, pywordsAux, toLower_isWhitespace, isEmpty_map_eq]
    by_cases hws : c.isWhitespace
    · rw [if_pos hws, if_pos hws]
      by_cases hacc : acc.isEmpty
      · rw [if_pos hacc, if_pos hacc]
        have := pywordsAux_map_toLower cs []
        simpa using this
      · rw [if_neg hacc, if_neg hacc]
        have := pywordsAux_map_toLower cs []
        simp only [List.map_nil] at this
        rw [this]
        simp
    · rw [if_neg hws, if_neg hws]
      have := pywordsAux_map_toLower cs (c :: acc)
      simpa using this

theorem joinWords_map_toLower : ∀ ws : List (List Char),
    joinWords (ws.map (List.map Char.toLower)) = (joinWords ws).map Char.toLower
  | [] => rfl
  | [_] => rfl
  | w :: w' :: rest => by
    have h1 : joinWords (w :: w' :: rest) = w ++ ' ' :: joinWords (w' :: rest) := rfl
    have h2 : joinWords ((w :: w' :: rest).map (List.map Char.toLower)) =
        w.map Char.toLower ++ ' ' :: joinWords ((w' :: rest).map (List.map Char.toLower)) := rfl
    rw [h1, h2, joinWords_map_toLower (w' :: rest)]
    have hsp : Char.toLower ' ' = ' ' := by decide
    simp [hsp]

theorem map_replaceBr_toLower (l : List Char) :
    (l.map Char.toLower).map replaceBr = (l.map replaceBr).map Char.toLower := by
  rw [List.map_map, List.map_map]
  apply List.map_congr_left
  intro c _
  exact replaceBr_toLower c

theorem normChars_map_toLower (l : List Char) :
    normChars (l.map Char.toLower) = (normChars l).map Char.toLower := by
  unfold normChars pywords
  rw [map_replaceBr_toLower]
  have h := pywordsAux_map_toLower (l.map replaceBr) []
  simp only [List.map_nil] at h
  rw [h, joinWords_map_toLower]

theorem pywordsAux_dropWhile_ws (l : List Char) :
    pywordsAux [] (l.dropWhile Char.isWhitespace) = pywordsAux [] l := by
  induction l with
  | nil => rfl
  | cons c cs ih =>
    by_cases h : c.isWhitespace
    · rw [List.dropWhile_cons_of_pos h, ih]
      conv_rhs => rw [pywordsAux]
      rw [if_pos h]
      rfl
    · rw [List.dropWhile_cons_of_neg (by simpa using h)]

theorem pywordsAux_all_ws : ∀ (w acc : List Char), (∀ c ∈ w, c.isWhitespace) →
    pywordsAux acc w = if acc.isEmpty then [] else [acc.reverse]
  | [], _, _ => rfl
  | c :: w', acc, h => by
    have hc : c.isWhitespace := h c (by simp)
    have hw' : ∀ x ∈ w', x.isWhitespace = true := fun x hx => h x (by simp [hx])
    rw [pywordsAux, if_pos hc]
    by_cases hacc : acc.isEmpty
    · rw [if_pos hacc, if_pos hacc]
      have := pywordsAux_all_ws w' [] hw'
      simpa using this
    · rw [if_neg hacc, if_neg hacc]
      simp [pywordsAux_all_ws w' [] hw']

theorem pywordsAux_append_ws : ∀ (l acc w : List Char), (∀ c ∈ w, c.isWhitespace) →
    pywordsAux acc (l ++ w) = pywordsAux acc l
  | [], acc, w, h => by
    rw [List.nil_append, pywordsAux_all_ws w acc h]
    rfl
  | c :: cs, acc, w, h => by
    rw [List.cons_append, pywordsAux, pywordsAux]
    by_cases hc : c.isWhitespace
    · rw [if_pos hc, if_pos hc]
      by_cases hacc : acc.isEmpty
      · rw [if_pos hacc, if_pos hacc, pywordsAux_append_ws cs [] w h]
      · rw [if_neg hacc, if_neg hacc, pywordsAux_append_ws cs [] w h]
    · rw [if_neg hc, if_neg hc, pywordsAux_append_ws cs (c :: acc) w h]

theorem pywords_stripChars (l : List Char) :
    pywords (stripChars l) = pywords l := by
  unfold stripChars pywords
  have hdecomp : l.dropWhile Char.isWhitespace =
      ((l.dropWhile Char.isWhitespace).reverse.dropWhile Char.isWhitespace).reverse ++
      ((l.dropWhile Char.isWhitespace).reverse.takeWhile Char.isWhitespace).reverse := by
    conv_lhs => rw [← List.reverse_reverse (l.dropWhile Char.isWhitespace)]
    conv_lhs =>
      rw [← List.takeWhile_append_dropWhile (p := Char.isWhitespace)
        (l := (l.dropWhile Char.isWhitespace).reverse)]
    rw [List.reverse_append]
  have hws : ∀ c ∈ ((l.dropWhile Char.isWhitespace).reverse.takeWhile
      Char.isWhitespace).reverse, c.isWhitespace := by
    intro c hc
    rw [List.mem_reverse] at hc
    exact List.mem_takeWhile_imp hc
  calc pywordsAux [] ((l.dropWhile Char.isWhitespace).reverse.dropWhile
        Char.isWhitespace).reverse
      = pywordsAux [] (((l.dropWhile Char.isWhitespace).reverse.dropWhile
          Char.isWhitespace).reverse ++
          ((l.dropWhile Char.isWhitespace).reverse.takeWhile
            Char.isWhitespace).reverse) :=
        (pywordsAux_append_ws _ [] _ hws).symm
    _ = pywordsAux [] (l.dropWhile Char.isWhitespace) := by rw [← hdecomp]
    _ = pywordsAux [] l := pywordsAux_dropWhile_ws l

theorem stripChars_map_replaceBr (l : List Char) :
    stripChars (l.map replaceBr) = (stripChars l).map replaceBr := by
  have hcomp : (Char.isWhitespace ∘ replaceBr) = Char.isWhitespace := by
    funext c
    exact replaceBr_isWhitespace c
  unfold stripChars
  rw [List.dropWhile_map, hcomp, ← List.map_reverse, List.dropWhile_map, hcomp,
    ← List.map_reverse]

theorem normChars_stripChars (l : List Char) :
    normChars (stripChars l) = normChars l := by
  unfold normChars
  rw [← stripChars_map_replaceBr, pywords_stripChars]

theorem normChars_pynorm_data (l : List Char) :
    normChars ((stripChars l).map Char.toLower) = (normChars l).map Char.toLower := by
  rw [normChars_map_toLower, normChars_stripChars]

theorem norm_pynorm_of_norm_eq (q₁ q₂ : String)
    (h : normalize_for_matching q₁ = normalize_for_matching q₂) :
    normalize_for_matching (pynorm q₁) = normalize_for_matching (pynorm q₂) := by
  have hd : normChars q₁.data = normChars q₂.data := congrArg String.data h
  show String.mk (normChars (pynorm q₁).data) = String.mk (normChars (pynorm q₂).data)
  have h₁ : (pynorm q₁).data = (stripChars q₁.data).map Char.toLower := rfl
  have h₂ : (pynorm q₂).data = (stripChars q₂.data).map Char.toLower := rfl
  rw [h₁, h₂, normChars_pynorm_data, normChars_pynorm_data, hd]

/-- C7: if two search strings have the same form after replacing square
brackets with parentheses and collapsing internal whitespace runs
(`normalize_for_matching`), then rung-2 exact-match resolution — the
comparison of the `normalize_for_matching` images of the stripped,
lowered query and candidate name (`resolve_offer`, lines 287-299) —
behaves identically on them: it succeeds for one iff it succeeds for the
other, and returns the same identifier, whichever bracket style was used
in the query or in the catalog name. -/
theorem c7_rung2_bracket_invariance (offers : List OfferDict) (q₁ q₂ : String)
    (h : normalize_for_matching q₁ = normalize_for_matching q₂) :
    rung2_find offers q₁ = rung2_find offers q₂ := by
  unfold rung2_find
  rw [norm_pynorm_of_norm_eq q₁ q₂ h]

/-- Witness for C7: bracketed and parenthesised spellings of the same
offer name resolve identically (here both to id 7, against a catalog
entry spelled with parentheses and different case). -/
theorem c7_rung2_bracket_invariance_witness :
    normalize_for_matching "Foo [BR]  x" = normalize_for_matching "Foo (BR) x" ∧
    rung2_find
      [{ offer_id := some 7, offer_name := "FOO (br) X", advertiser_name := ""
         advertiser := "", offer := "", raw_name := "", raw_offer_name := ""
         raw_advertiser_name := "", raw_advertiser := "", raw_offer := "" }]
      "Foo [BR]  x" =
    rung2_find
      [{ offer_id := some 7, offer_name := "FOO (br) X", advertiser_name := ""
         advertiser := "", offer := "", raw_name := "", raw_offer_name := ""
         raw_advertiser_name := "", raw_advertiser := "", raw_offer := "" }]
      "Foo (BR) x" ∧
    rung2_find
      [{ offer_id := some 7, offer_name := "FOO (br) X", advertiser_name := ""
         advertiser := "", offer := "", raw_name := "", raw_offer_name := ""
         raw_advertiser_name := "", raw_advertiser := "", raw_offer := "" }]
      "Foo [BR]  x" = some 7 :=
  ⟨by decide,
   c7_rung2_bracket_invariance
     [{ offer_id := some 7, offer_name := "FOO (br) X", advertiser_name := ""
        advertiser := "", offer := "", raw_name := "", raw_offer_name := ""
        raw_advertiser_name := "", raw_advertiser := "", raw_offer := "" }]
     "Foo [BR]  x" "Foo (BR) x" (by decide),
   by decide⟩
